import Mathlib

/-!
Kanvas rollup node: the RPC handlers and gossip validation.

A shallow embedding of `components/node/node/api.go` (the admin and node RPC
handlers) together with the collaborators the handlers call through Go
interfaces.  Interface values are records of functions; every call that can
touch the outside world threads an explicit world state `σ`, so the order of
calls made by a handler is visible in the state it returns.

Go conventions used throughout:
* a Go result list `(v, err)` is a pair whose last component is an
  `Option GoError` (`none` is the nil error);
* a nil-able pointer or interface value is an `Option`;
* `defer f()` runs `f` on the state reached by the function body, after the
  results have been fixed.
-/

namespace Kanvas

/-! ## Basic data -/

/-- One octet. -/
abbrev Byte := Fin 256

/-- Fixed 32 byte array: `common.Hash`, `eth.Bytes32`. -/
abbrev Bytes32 := { l : List Byte // l.length = 32 }

/-- Fixed 20 byte array: `common.Address`. -/
abbrev Address := { l : List Byte // l.length = 20 }

/-- The zero value of a 32 byte array (`var v eth.Bytes32`). -/
def Bytes32.zero : Bytes32 := ⟨List.replicate 32 0, by simp⟩

/-- The zero value of an address (`common.Address{}`). -/
def Address.zero : Address := ⟨List.replicate 20 0, by simp⟩

/-- Conversion to the Go type `uint64`. -/
def toUint64 (n : Nat) : Nat := n % 2 ^ 64

/-- Go `context.Context`, reduced to an identifying token. -/
structure Context where
  id : Nat
deriving DecidableEq, Repr

/-- Go `error` values.  `notFound` is the sentinel `ethereum.NotFound`,
`other` is any error created elsewhere with `errors.New`, and `wrap pre e`
is `fmt.Errorf(pre + "%w", e)`. -/
inductive GoError where
  | notFound
  | other (msg : String)
  | wrap (pre : String) (inner : GoError)
deriving DecidableEq, Repr

/-- The text returned by `Error()`. -/
def GoError.message : GoError → String
  | .notFound => "not found"
  | .other msg => msg
  | .wrap pre inner => pre ++ inner.message

/-- Go `errors.Is(e, ethereum.NotFound)`: the error is the sentinel or
wraps it at some depth. -/
def GoError.isNotFound : GoError → Bool
  | .notFound => true
  | .other _ => false
  | .wrap _ inner => inner.isNotFound

/-- Go `eth.BlockID`. -/
structure BlockID where
  Hash : Bytes32
  Number : Nat
deriving DecidableEq

/-- Go `eth.L1BlockRef`. -/
structure L1BlockRef where
  Hash : Bytes32
  Number : Nat
  ParentHash : Bytes32
  Time : Nat
deriving DecidableEq

/-- Go `eth.L2BlockRef`. -/
structure L2BlockRef where
  Hash : Bytes32
  Number : Nat
  ParentHash : Bytes32
  Time : Nat
  L1Origin : BlockID
  SequenceNumber : Nat
deriving DecidableEq

/-- Go `eth.SyncStatus`, the reply of `kanvas_syncStatus`. -/
structure SyncStatus where
  CurrentL1 : L1BlockRef
  HeadL1 : L1BlockRef
  SafeL1 : L1BlockRef
  FinalizedL1 : L1BlockRef
  UnsafeL2 : L2BlockRef
  SafeL2 : L2BlockRef
  FinalizedL2 : L2BlockRef
deriving DecidableEq

/-- Go `eth.BlockInfo`: the two header getters the handlers call. -/
structure BlockInfo where
  Hash : Bytes32
  Root : Bytes32
deriving DecidableEq

/-- Go `eth.AccountResult`: the storage hash read by the handler and the
account proof nodes that `Verify` checks. -/
structure AccountResult where
  AccountProof : List (List Byte)
  StorageHash : Bytes32
deriving DecidableEq

/-- Go `bindings.TypesOutputRootProof`. -/
structure TypesOutputRootProof where
  Version : Bytes32
  StateRoot : Bytes32
  MessagePasserStorageRoot : Bytes32
  LatestBlockhash : Bytes32
deriving DecidableEq

/-- Go `eth.OutputResponse`, the reply of `kanvas_outputAtBlock`. -/
structure OutputResponse where
  Version : Bytes32
  OutputRoot : Bytes32
  BlockRef : L2BlockRef
  WithdrawalStorageRoot : Bytes32
  StateRoot : Bytes32
  Status : Option SyncStatus
deriving DecidableEq

/-- Go `rollup.Config`, the fields listed for the rollup config. -/
structure Config where
  L2ChainID : Nat
  BlockTime : Nat
  MaxSequencerDrift : Nat
  ChannelTimeout : Nat
  P2PProposerAddress : Address
deriving DecidableEq

/-- A value passed as a key/value argument to the logger. -/
inductive LogValue where
  | str (s : String)
  | hash (h : Bytes32)
  | num (n : Nat)
  | err (e : GoError)
deriving DecidableEq

/-! ## Collaborators -/

/-- Pure helpers and constants of other packages that the handlers use:
`crypto.Keccak256Hash`, `(*eth.AccountResult).Verify`, the `String()`
methods used by `%s`, `predeploys.L2ToL1MessagePasserAddr`, and the two
constants of package `version`. -/
structure Ext where
  keccak256 : List Byte → Bytes32
  Verify : AccountResult → Bytes32 → Option GoError
  hashString : Bytes32 → String
  refString : L2BlockRef → String
  L2ToL1MessagePasserAddr : Address
  Version : String
  Meta : String

/-- Go interface `l2EthClient`. -/
structure l2EthClient (σ : Type) where
  InfoByHash : Context → Bytes32 → σ → (Option BlockInfo × Option GoError) × σ
  GetProof : Context → Address → List Bytes32 → String → σ →
    (Option AccountResult × Option GoError) × σ

/-- Go interface `driverClient`. -/
structure driverClient (σ : Type) where
  SyncStatus : Context → σ → (Option SyncStatus × Option GoError) × σ
  BlockRefWithStatus : Context → Nat → σ →
    (L2BlockRef × Option Kanvas.SyncStatus × Option GoError) × σ
  ResetDerivationPipeline : Context → σ → Option GoError × σ
  StartProposer : Context → Bytes32 → σ → Option GoError × σ
  StopProposer : Context → σ → (Bytes32 × Option GoError) × σ

/-- Go interface `rpcMetrics`: `RecordRPCServerRequest` returns the function
that records the duration of serving the method. -/
structure rpcMetrics (σ : Type) where
  RecordRPCServerRequest : String → σ → (σ → σ) × σ

/-- Go `log.Logger`, the one method the handlers call. -/
structure Logger (σ : Type) where
  Error : String → List (String × LogValue) → σ → σ

/-- The pattern `recordDur := m.RecordRPCServerRequest(method); defer recordDur()`
around a function body. -/
def recorded {σ α : Type} (m : rpcMetrics σ) (method : String) (body : σ → α × σ)
    (s : σ) : α × σ :=
  let rec1 := m.RecordRPCServerRequest method s
  let out := body rec1.2
  (out.1, rec1.1 out.2)

/-! ## Admin API -/

/-- Go `adminAPI`. -/
structure adminAPI (σ : Type) where
  dr : driverClient σ
  m : rpcMetrics σ

/-- Go `NewAdminAPI`. -/
def NewAdminAPI {σ : Type} (dr : driverClient σ) (m : rpcMetrics σ) : adminAPI σ :=
  { dr := dr, m := m }

/-- Go `(*adminAPI).ResetDerivationPipeline`. -/
def adminAPI.ResetDerivationPipeline {σ : Type} (n : adminAPI σ) (ctx : Context) :
    σ → Option GoError × σ :=
  recorded n.m "admin_resetDerivationPipeline" (n.dr.ResetDerivationPipeline ctx)

/-- Go `(*adminAPI).StartProposer`. -/
def adminAPI.StartProposer {σ : Type} (n : adminAPI σ) (ctx : Context) (blockHash : Bytes32) :
    σ → Option GoError × σ :=
  recorded n.m "admin_startProposer" (n.dr.StartProposer ctx blockHash)

/-- Go `(*adminAPI).StopProposer`. -/
def adminAPI.StopProposer {σ : Type} (n : adminAPI σ) (ctx : Context) :
    σ → (Bytes32 × Option GoError) × σ :=
  recorded n.m "admin_stopProposer" (n.dr.StopProposer ctx)

/-! ## Node API -/

/-- Go `nodeAPI`. -/
structure nodeAPI (σ : Type) where
  config : Option Config
  client : l2EthClient σ
  dr : driverClient σ
  log : Logger σ
  m : rpcMetrics σ

/-- Go `NewNodeAPI`. -/
def NewNodeAPI {σ : Type} (config : Option Config) (l2Client : l2EthClient σ)
    (dr : driverClient σ) (log : Logger σ) (m : rpcMetrics σ) : nodeAPI σ :=
  { config := config, client := l2Client, dr := dr, log := log, m := m }

/-- Modelled from the spec: `rollup.ComputeL2OutputRoot` (package `rollup` is
not among the sources).  The output root is
`keccak256(version || stateRoot || withdrawalStorageRoot || blockHash)`; the
only failure, named by the caller's log line, is a nil argument. -/
def ComputeL2OutputRoot (ext : Ext) (proofElements : Option TypesOutputRootProof) :
    Bytes32 × Option GoError :=
  match proofElements with
  | none => (Bytes32.zero, some (GoError.other "no proof elements"))
  | some p =>
    (ext.keccak256
      (p.Version.val ++ p.StateRoot.val ++ p.MessagePasserStorageRoot.val ++ p.LatestBlockhash.val),
     none)

/-- Go `(*nodeAPI).OutputAtBlock`, the function body that runs between the
metrics call and the deferred `recordDur()`. -/
def nodeAPI.outputAtBlockBody {σ : Type} (ext : Ext) (n : nodeAPI σ) (ctx : Context)
    (number : Nat) (s : σ) : (Option OutputResponse × Option GoError) × σ :=
  match n.dr.BlockRefWithStatus ctx (toUint64 number) s with
  | ((_, _, some err), s1) =>
    ((none, some (GoError.wrap "failed to get L2 block ref with sync status: " err)), s1)
  | ((ref, status, none), s1) =>
    match n.client.InfoByHash ctx ref.Hash s1 with
    | ((_, some err), s2) =>
      ((none, some (GoError.wrap
        ("failed to get L2 block by hash " ++ ext.refString ref ++ ": ") err)), s2)
    | ((none, none), s2) => ((none, some GoError.notFound), s2)
    | ((some head, none), s2) =>
      match n.client.GetProof ctx ext.L2ToL1MessagePasserAddr [] (ext.hashString ref.Hash) s2 with
      | ((_, some err), s3) =>
        ((none, some (GoError.wrap
          ("failed to get contract proof at block " ++ ext.refString ref ++ ": ") err)), s3)
      | ((none, none), s3) => ((none, some (GoError.wrap "proof " GoError.notFound)), s3)
      | ((some proof, none), s3) =>
        match ext.Verify proof head.Root with
        | some err =>
          ((none, some (GoError.wrap
            ("invalid withdrawal root hash, state root was " ++ ext.hashString head.Root ++ ": ")
            err)),
           n.log.Error "invalid withdrawal root detected in block"
            [("stateRoot", LogValue.hash head.Root), ("blocknum", LogValue.num number),
             ("msg", LogValue.err err)] s3)
        | none =>
          let l2OutputRootVersion : Bytes32 := Bytes32.zero
          match ComputeL2OutputRoot ext (some
              { Version := l2OutputRootVersion
                StateRoot := head.Root
                MessagePasserStorageRoot := proof.StorageHash
                LatestBlockhash := head.Hash }) with
          | (_, some err) =>
            ((none, some err),
             n.log.Error "Error computing L2 output root, nil ptr passed to hashing function" [] s3)
          | (l2OutputRoot, none) =>
            ((some
              { Version := l2OutputRootVersion
                OutputRoot := l2OutputRoot
                BlockRef := ref
                WithdrawalStorageRoot := proof.StorageHash
                StateRoot := head.Root
                Status := status }, none), s3)

/-- Go `(*nodeAPI).OutputAtBlock`. -/
def nodeAPI.OutputAtBlock {σ : Type} (ext : Ext) (n : nodeAPI σ) (ctx : Context)
    (number : Nat) : σ → (Option OutputResponse × Option GoError) × σ :=
  recorded n.m "kanvas_outputAtBlock" (n.outputAtBlockBody ext ctx number)

/-- The reply of the driver call made by `OutputAtBlock` (api.go line 91)
when the body starts in state `s`. -/
def nodeAPI.driverReply {σ : Type} (n : nodeAPI σ) (ctx : Context) (number : Nat) (s : σ) :
    (L2BlockRef × Option SyncStatus × Option GoError) × σ :=
  n.dr.BlockRefWithStatus ctx (toUint64 number) s

/-- The reply of the header lookup made by `OutputAtBlock` (api.go line 96):
by the hash of the driver's ref, in the state the driver call left. -/
def nodeAPI.headerReply {σ : Type} (n : nodeAPI σ) (ctx : Context) (number : Nat) (s : σ) :
    (Option BlockInfo × Option GoError) × σ :=
  n.client.InfoByHash ctx (n.driverReply ctx number s).1.1.Hash (n.driverReply ctx number s).2

/-- The reply of the proof lookup made by `OutputAtBlock` (api.go line 104),
in the state the header lookup left. -/
def nodeAPI.proofReply {σ : Type} (ext : Ext) (n : nodeAPI σ) (ctx : Context) (number : Nat)
    (s : σ) : (Option AccountResult × Option GoError) × σ :=
  n.client.GetProof ctx ext.L2ToL1MessagePasserAddr []
    (ext.hashString (n.driverReply ctx number s).1.1.Hash) (n.headerReply ctx number s).2

/-- The state in which the body of `OutputAtBlock` starts: after the metrics
call of api.go line 88. -/
def nodeAPI.entered {σ : Type} (n : nodeAPI σ) (s : σ) : σ :=
  (n.m.RecordRPCServerRequest "kanvas_outputAtBlock" s).2

/-- Go `(*nodeAPI).SyncStatus`. -/
def nodeAPI.SyncStatus {σ : Type} (n : nodeAPI σ) (ctx : Context) :
    σ → (Option SyncStatus × Option GoError) × σ :=
  recorded n.m "kanvas_syncStatus" (n.dr.SyncStatus ctx)

/-- Go `(*nodeAPI).RollupConfig`. -/
def nodeAPI.RollupConfig {σ : Type} (n : nodeAPI σ) (_ctx : Context) :
    σ → (Option Config × Option GoError) × σ :=
  recorded n.m "kanvas_rollupConfig" (fun s => ((n.config, none), s))

/-- Go `(*nodeAPI).Version`. -/
def nodeAPI.Version {σ : Type} (ext : Ext) (n : nodeAPI σ) (_ctx : Context) :
    σ → (String × Option GoError) × σ :=
  recorded n.m "kanvas_version" (fun s => ((ext.Version ++ "-" ++ ext.Meta, none), s))

/-- A call of one of the four methods of the node API. -/
inductive NodeCall where
  | outputAtBlock (ctx : Context) (number : Nat)
  | syncStatus (ctx : Context)
  | rollupConfig (ctx : Context)
  | version (ctx : Context)
deriving DecidableEq

/-- One method call through the pointer receiver `n`: the receiver after the
call and the world state after the call.  No method of api.go assigns to a
field of its receiver. -/
def nodeAPI.call {σ : Type} (ext : Ext) (n : nodeAPI σ) (c : NodeCall) (s : σ) :
    nodeAPI σ × σ :=
  match c with
  | .outputAtBlock ctx number => (n, (n.OutputAtBlock ext ctx number s).2)
  | .syncStatus ctx => (n, (n.SyncStatus ctx s).2)
  | .rollupConfig ctx => (n, (n.RollupConfig ctx s).2)
  | .version ctx => (n, (n.Version ext ctx s).2)

/-- A sequence of method calls, one after the other. -/
def nodeAPI.calls {σ : Type} (ext : Ext) (n : nodeAPI σ) : List NodeCall → σ → nodeAPI σ × σ
  | [], s => (n, s)
  | c :: cs, s => nodeAPI.calls ext (n.call ext c s).1 cs (n.call ext c s).2

/-! ## Gossip validation

Package `p2p` is represented among the sources by `gossip_test.go` only; the
two functions under test are modelled from the specification. -/

/-- Go `pubsub.ValidationResult`. -/
inductive ValidationResult where
  | ValidationAccept
  | ValidationReject
  | ValidationIgnore
deriving DecidableEq, Repr

/-- How a call of a Go function ends: it returns a value or it panics. -/
inductive Outcome (α : Type) where
  | returns (a : α)
  | panics (v : String)
deriving DecidableEq, Repr

/-- Go `pubsub.Message`. -/
structure Message where
  Data : List Byte
deriving DecidableEq

/-- Go `pubsub.ValidatorEx`: a validator with its own state `τ`; the peer id
is a string and the message pointer may be nil. -/
abbrev ValidatorEx (τ : Type) :=
  Context → String → Option Message → τ → Outcome ValidationResult × τ

/-- Modelled from the spec: `guardGossipValidator` (p2p/gossip.go is not among
the sources).  "Validator must recover from panics and return
`ValidationReject` on panic"; otherwise the inner validator decides.  What
the logger receives is not specified and not modelled. -/
def guardGossipValidator {L τ : Type} (_log : Logger L) (fn : ValidatorEx τ) : ValidatorEx τ :=
  fun ctx id message t =>
    match fn ctx id message t with
    | (.returns result, t1) => (.returns result, t1)
    | (.panics _, t1) => (.returns ValidationResult.ValidationReject, t1)

/-- The outcomes of a sequence of calls `(ctx, id, message)` of a validator,
each call starting in the state the previous one left. -/
def runValidator {τ : Type} (v : ValidatorEx τ) :
    List (Context × String × Option Message) → τ → List (Outcome ValidationResult)
  | [], _ => []
  | c :: cs, t => (v c.1 c.2.1 c.2.2 t).1 :: runValidator v cs (v c.1 c.2.1 c.2.2 t).2

/-- What the caller of a guarded validator sees for an outcome of the inner
validator. -/
def recovered : Outcome ValidationResult → Outcome ValidationResult
  | .returns r => .returns r
  | .panics _ => .returns ValidationResult.ValidationReject

/-- A secp256k1 private key. -/
abbrev PrivateKey := Bytes32

/-- A secp256k1 public key, as its encoding. -/
abbrev PublicKey := List Byte

/-- The primitives of go-ethereum's package `crypto` that signing and
verification use, and the encoding of the chain id in the signing hash. -/
structure Crypto where
  keccak256 : List Byte → Bytes32
  pubkey : PrivateKey → PublicKey
  Sign : Bytes32 → PrivateKey → List Byte
  SigToPub : Bytes32 → List Byte → Option PublicKey
  PubkeyToAddress : PublicKey → Address
  chainIDBytes : Nat → List Byte

/-- The signing domain of gossiped blocks, `kanvas_block_signing_v1`. -/
def SigningDomainBlocksV1 : List Byte :=
  "kanvas_block_signing_v1".data.map fun ch => Fin.ofNat ch.toNat

/-- Modelled from the spec: the hash that is signed,
`keccak256(domain || chain_id || keccak256(payload))`. -/
def SigningHash (c : Crypto) (domain : List Byte) (chainID : Nat) (payloadBytes : List Byte) :
    Bytes32 :=
  c.keccak256 (domain ++ c.chainIDBytes chainID ++ (c.keccak256 payloadBytes).val)

/-- Modelled from the spec: `(*LocalSigner).Sign` (p2p/signer.go is not among
the sources): the signature of the signing hash under the signer's key. -/
def LocalSigner.Sign (c : Crypto) (priv : PrivateKey) (_ctx : Context) (domain : List Byte)
    (chainID : Nat) (encodedMsg : List Byte) : List Byte × Option GoError :=
  (c.Sign (SigningHash c domain chainID encodedMsg) priv, none)

/-- Go `testutils.MockRuntimeConfig`: the configured proposer P2P address;
the zero address stands for no configured proposer. -/
structure GossipRuntimeConfig where
  P2PPropAddress : Address
deriving DecidableEq

/-- Modelled from the spec: `verifyBlockSignature` (p2p/gossip.go is not among
the sources).  "Missing proposer config → `ValidationIgnore`"; "the recovered
address must equal the configured proposer p2p address; otherwise
`ValidationReject`". -/
def verifyBlockSignature {L : Type} (c : Crypto) (_log : Logger L) (cfg : Config)
    (runCfg : GossipRuntimeConfig) (_id : String) (signatureBytes payloadBytes : List Byte) :
    ValidationResult :=
  if runCfg.P2PPropAddress = Address.zero then ValidationResult.ValidationIgnore
  else
    match c.SigToPub (SigningHash c SigningDomainBlocksV1 cfg.L2ChainID payloadBytes)
        signatureBytes with
    | none => ValidationResult.ValidationReject
    | some pub =>
      if c.PubkeyToAddress pub = runCfg.P2PPropAddress then ValidationResult.ValidationAccept
      else ValidationResult.ValidationReject

/-! ## Fixtures

Concrete collaborators on which the handlers can be evaluated.  The world
state is the list of calls made so far. -/

/-- World state of the fixtures: the calls made so far, oldest first. -/
abbrev Trace := List String

/-- The 32 byte array filled with one octet. -/
def bytes32Of (b : Byte) : Bytes32 := ⟨List.replicate 32 b, by simp⟩

/-- The address filled with one octet. -/
def addressOf (b : Byte) : Address := ⟨List.replicate 20 b, by simp⟩

/-- A block ref with the given hash and number. -/
def refOf (hash : Bytes32) (number : Nat) : L2BlockRef :=
  { Hash := hash, Number := number, ParentHash := Bytes32.zero, Time := 2 * number,
    L1Origin := { Hash := Bytes32.zero, Number := 0 }, SequenceNumber := number }

/-- Metrics that write the start and the end of a request to the trace. -/
def traceMetrics : rpcMetrics Trace :=
  { RecordRPCServerRequest := fun method s =>
      (fun t => t ++ ["end " ++ method], s ++ ["begin " ++ method]) }

/-- A logger that writes the message to the trace. -/
def traceLogger : Logger Trace :=
  { Error := fun msg _ s => s ++ ["log.Error " ++ msg] }

/-- A stand-in for the hash function: every octet of the digest is the sum of
the input octets. -/
def sumHash (l : List Byte) : Bytes32 := bytes32Of (l.foldl (fun a b => a + b) 0)

/-- Helpers for the fixtures.  A proof verifies against a root when its only
node is that root. -/
def stubExt : Ext :=
  { keccak256 := sumHash
    Verify := fun p root =>
      if p.AccountProof = [root.val] then none else some (GoError.other "bad proof")
    hashString := fun h => "0x" ++ String.join (h.val.map fun b => toString b.val)
    refString := fun r => toString r.Number
    L2ToL1MessagePasserAddr := addressOf 0x42
    Version := "v0.1.0"
    Meta := "dev" }

/-- A driver that knows the blocks below `tip`: block `k` has hash
`bytes32Of k`.  For other numbers it fails with `unknownErr`. -/
def stubDriver (tip : Nat) (unknownErr : GoError) : driverClient Trace :=
  { SyncStatus := fun _ s => ((none, some (GoError.other "no status")), s ++ ["dr.SyncStatus"])
    BlockRefWithStatus := fun _ num s =>
      if num < tip then
        ((refOf (bytes32Of (Fin.ofNat num)) num, none, none), s ++ ["dr.BlockRefWithStatus"])
      else
        ((refOf Bytes32.zero 0, none, some unknownErr), s ++ ["dr.BlockRefWithStatus"])
    ResetDerivationPipeline := fun _ s => (none, s ++ ["dr.ResetDerivationPipeline"])
    StartProposer := fun _ _ s => (none, s ++ ["dr.StartProposer"])
    StopProposer := fun _ s => ((bytes32Of 9, none), s ++ ["dr.StopProposer"]) }

/-- World state of the proposer fixture: whether the proposer runs, the hash
of the current unsafe head, and the calls made so far. -/
structure ProposerWorld where
  running : Bool
  unsafeHead : Bytes32
  trace : List String
deriving DecidableEq

/-- Modelled from the spec: the proposer control of the driver (the driver's
event loop is not among the sources).  `StartProposer` "rejects if already
running or hash mismatch", the hash being that of the current unsafe head;
`StopProposer` returns the last unsafe hash. -/
def specDriver : driverClient ProposerWorld :=
  { SyncStatus := fun _ w => ((none, some (GoError.other "no status")), w)
    BlockRefWithStatus := fun _ _ w => ((refOf Bytes32.zero 0, none, some GoError.notFound), w)
    ResetDerivationPipeline := fun _ w => (none, w)
    StartProposer := fun _ h w =>
      if w.running then (some (GoError.other "proposer already running"), w)
      else if h = w.unsafeHead then (none, { w with running := true })
      else (some (GoError.other "block hash does not match"), w)
    StopProposer := fun _ w => ((w.unsafeHead, none), { w with running := false }) }

/-- Metrics of the proposer fixture. -/
def specMetrics : rpcMetrics ProposerWorld :=
  { RecordRPCServerRequest := fun method w =>
      (fun v => { v with trace := v.trace ++ ["end " ++ method] },
       { w with trace := w.trace ++ ["begin " ++ method] }) }

/-- The admin API over the proposer fixture. -/
def specAdmin : adminAPI ProposerWorld := NewAdminAPI specDriver specMetrics

/-- The proposer fixture with unsafe head `bytes32Of 9`. -/
def world9 (running : Bool) : ProposerWorld :=
  { running := running, unsafeHead := bytes32Of 9, trace := [] }

/-- An L2 client whose header for hash `h` has state root `h` shifted by one
and whose account proof has the nodes `proofNodes`; with `header` or `proof`
false the corresponding reply is nil. -/
def stubClient (header proof : Bool) (proofNodes : List (List Byte)) :
    l2EthClient Trace :=
  { InfoByHash := fun _ h s =>
      ((if header then some { Hash := h, Root := bytes32Of (h.val.headD 0 + 1) } else none, none),
       s ++ ["client.InfoByHash"])
    GetProof := fun _ _ _ tag s =>
      ((if proof then
          some { AccountProof := proofNodes, StorageHash := bytes32Of 0x33 }
        else none, none),
       s ++ ["client.GetProof " ++ tag]) }

/-- The node API over the fixtures. -/
def stubNode (tip : Nat) (unknownErr : GoError) (header proof : Bool)
    (proofNodes : List (List Byte)) : nodeAPI Trace :=
  NewNodeAPI none (stubClient header proof proofNodes) (stubDriver tip unknownErr)
    traceLogger traceMetrics

/-- The fixture in which blocks below 10 are known and the proof of block 7
verifies. -/
def goodNode : nodeAPI Trace := stubNode 10 GoError.notFound true true [(bytes32Of 8).val]

/-- As `goodNode`, with an account proof that does not verify. -/
def badProofNode : nodeAPI Trace := stubNode 10 GoError.notFound true true []

/-- As `goodNode`, with an L2 client that has no account proof. -/
def nilProofNode : nodeAPI Trace := stubNode 10 GoError.notFound true false []

/-- As `goodNode`, with an L2 client that has no header. -/
def nilHeaderNode : nodeAPI Trace := stubNode 10 GoError.notFound false false []

/-- The header the fixtures return for block 7. -/
def header7 : BlockInfo := { Hash := bytes32Of 7, Root := bytes32Of 8 }

/-- The response of `goodNode` for block 7. -/
def response7 : OutputResponse :=
  { Version := Bytes32.zero, OutputRoot := bytes32Of 64, BlockRef := refOf (bytes32Of 7) 7,
    WithdrawalStorageRoot := bytes32Of 0x33, StateRoot := bytes32Of 8, Status := none }

/-- The inner validator of `TestGuardGossipValidator`: it panics for peer
`mallory`, ignores peer `bob` and accepts everyone else. -/
def testValidator : ValidatorEx Unit :=
  fun _ id _ t =>
    if id = "mallory" then (Outcome.panics "mallory was here", t)
    else if id = "bob" then (Outcome.returns ValidationResult.ValidationIgnore, t)
    else (Outcome.returns ValidationResult.ValidationAccept, t)

/-- The six calls of `TestGuardGossipValidator`, in order. -/
def testCalls : List (Context × String × Option Message) :=
  [(⟨0⟩, "alice", none), (⟨0⟩, "mallory", none), (⟨0⟩, "bob", none),
   (⟨0⟩, "mallory", none), (⟨0⟩, "alice", none), (⟨0⟩, "bob", none)]

/-- A stand-in signature scheme: the public key is the private key, a
signature is the key, then the hash, then a zero octet, and recovery checks
the hash and returns the key part. -/
def stubCrypto : Crypto :=
  { keccak256 := sumHash
    pubkey := fun k => k.val
    Sign := fun h k => k.val ++ h.val ++ [0]
    SigToPub := fun h sig =>
      if sig.length = 65 ∧ (sig.drop 32).take 32 = h.val then some (sig.take 32) else none
    PubkeyToAddress := fun pub => ⟨(pub ++ List.replicate 20 0).take 20, by simp⟩
    chainIDBytes := fun n => [Fin.ofNat n] }

/-- The rollup config of `TestVerifyBlockSignature`: chain id 100. -/
def testConfig : Config :=
  { L2ChainID := 100, BlockTime := 2, MaxSequencerDrift := 600, ChannelTimeout := 300,
    P2PProposerAddress := Address.zero }

/-- The message of `TestVerifyBlockSignature`, `any msg`. -/
def testMsg : List Byte := "any msg".data.map fun ch => Fin.ofNat ch.toNat

/-- The proposer key of the fixtures. -/
def testKey : PrivateKey := bytes32Of 5

/-- The signature the tests verify: the first 65 octets of what the local
signer of `testKey` produces for `testMsg`. -/
def testSig : List Byte :=
  (LocalSigner.Sign stubCrypto testKey ⟨0⟩ SigningDomainBlocksV1 testConfig.L2ChainID
    testMsg).1.take 65

/-! ## Command line flags (`components/node/flags/flags.go`) -/

namespace flags

/-- The flag types of `urfave/cli` that flags.go uses. -/
inductive FlagKind where
  | StringFlag
  | IntFlag
  | BoolFlag
  | GenericFlag
  | Uint64Flag
  | DurationFlag
deriving DecidableEq, Repr

/-- The default value of a flag (`Value`): a string, an int, a uint64, a
duration in nanoseconds, or the name of a generic value; a bool flag has
none.  A value that flags.go leaves out is the zero value of the type. -/
inductive FlagValue where
  | str (s : String)
  | int (i : Int)
  | uint64 (n : Nat)
  | duration (ns : Nat)
  | generic (name : String)
  | bool
deriving DecidableEq, Repr

/-- Go `cli.Flag`, with the fields that decide how a flag is read: its type,
name, environment variable, default value and `Required`.  The help text
`Usage` is left out. -/
structure Flag where
  kind : FlagKind
  Name : String
  EnvVar : String
  Value : FlagValue
  Required : Bool
deriving DecidableEq, Repr

/-- Go `envVarPrefix`. -/
def envVarPrefix : String := "NODE_"

/-- Go `prefixEnvVar`. -/
def prefixEnvVar (name : String) : String := envVarPrefix ++ name

/-- Go `flags.L1NodeAddr`. -/
def L1NodeAddr : Flag :=
  { kind := FlagKind.StringFlag, Name := "l1", EnvVar := prefixEnvVar "L1_ETH_RPC",
    Value := FlagValue.str "http://127.0.0.1:8545", Required := false }

/-- Go `flags.L2EngineAddr`. -/
def L2EngineAddr : Flag :=
  { kind := FlagKind.StringFlag, Name := "l2", EnvVar := prefixEnvVar "L2_ENGINE_RPC",
    Value := FlagValue.str "", Required := false }

/-- Go `flags.RollupConfig`. -/
def RollupConfig : Flag :=
  { kind := FlagKind.StringFlag, Name := "rollup.config", EnvVar := prefixEnvVar "ROLLUP_CONFIG",
    Value := FlagValue.str "", Required := false }

/-- Go `flags.Network`. -/
def Network : Flag :=
  { kind := FlagKind.StringFlag, Name := "network", EnvVar := prefixEnvVar "NETWORK",
    Value := FlagValue.str "", Required := false }

/-- Go `flags.RPCListenAddr`. -/
def RPCListenAddr : Flag :=
  { kind := FlagKind.StringFlag, Name := "rpc.addr", EnvVar := prefixEnvVar "RPC_ADDR",
    Value := FlagValue.str "", Required := false }

/-- Go `flags.RPCListenPort`. -/
def RPCListenPort : Flag :=
  { kind := FlagKind.IntFlag, Name := "rpc.port", EnvVar := prefixEnvVar "RPC_PORT",
    Value := FlagValue.int 0, Required := false }

/-- Go `flags.RPCEnableAdmin`. -/
def RPCEnableAdmin : Flag :=
  { kind := FlagKind.BoolFlag, Name := "rpc.enable-admin", EnvVar := prefixEnvVar "RPC_ENABLE_ADMIN",
    Value := FlagValue.bool, Required := false }

/-- Go `flags.L1TrustRPC`. -/
def L1TrustRPC : Flag :=
  { kind := FlagKind.BoolFlag, Name := "l1.trustrpc", EnvVar := prefixEnvVar "L1_TRUST_RPC",
    Value := FlagValue.bool, Required := false }

/-- Go `flags.L1RPCProviderKind`. -/
def L1RPCProviderKind : Flag :=
  { kind := FlagKind.GenericFlag, Name := "l1.rpckind", EnvVar := prefixEnvVar "L1_RPC_KIND",
    Value := FlagValue.generic "RPCKindBasic", Required := false }

/-- Go `flags.L2EngineJWTSecret`. -/
def L2EngineJWTSecret : Flag :=
  { kind := FlagKind.StringFlag, Name := "l2.jwt-secret", EnvVar := prefixEnvVar "L2_ENGINE_AUTH",
    Value := FlagValue.str "", Required := false }

/-- Go `flags.SyncerL1Confs`. -/
def SyncerL1Confs : Flag :=
  { kind := FlagKind.Uint64Flag, Name := "syncer.l1-confs", EnvVar := prefixEnvVar "SYNCER_L1_CONFS",
    Value := FlagValue.uint64 0, Required := false }

/-- Go `flags.ProposerEnabledFlag`. -/
def ProposerEnabledFlag : Flag :=
  { kind := FlagKind.BoolFlag, Name := "proposer.enabled", EnvVar := prefixEnvVar "PROPOSER_ENABLED",
    Value := FlagValue.bool, Required := false }

/-- Go `flags.ProposerStoppedFlag`. -/
def ProposerStoppedFlag : Flag :=
  { kind := FlagKind.BoolFlag, Name := "proposer.stopped", EnvVar := prefixEnvVar "PROPOSER_STOPPED",
    Value := FlagValue.bool, Required := false }

/-- Go `flags.ProposerL1Confs`. -/
def ProposerL1Confs : Flag :=
  { kind := FlagKind.Uint64Flag, Name := "proposer.l1-confs", EnvVar := prefixEnvVar "PROPOSER_L1_CONFS",
    Value := FlagValue.uint64 4, Required := false }

/-- Go `flags.L1EpochPollIntervalFlag`. -/
def L1EpochPollIntervalFlag : Flag :=
  { kind := FlagKind.DurationFlag, Name := "l1.epoch-poll-interval", EnvVar := prefixEnvVar "L1_EPOCH_POLL_INTERVAL",
    Value := FlagValue.duration (1000000000 * 12 * 32), Required := false }

/-- Go `flags.MetricsEnabledFlag`. -/
def MetricsEnabledFlag : Flag :=
  { kind := FlagKind.BoolFlag, Name := "metrics.enabled", EnvVar := prefixEnvVar "METRICS_ENABLED",
    Value := FlagValue.bool, Required := false }

/-- Go `flags.MetricsAddrFlag`. -/
def MetricsAddrFlag : Flag :=
  { kind := FlagKind.StringFlag, Name := "metrics.addr", EnvVar := prefixEnvVar "METRICS_ADDR",
    Value := FlagValue.str "0.0.0.0", Required := false }

/-- Go `flags.MetricsPortFlag`. -/
def MetricsPortFlag : Flag :=
  { kind := FlagKind.IntFlag, Name := "metrics.port", EnvVar := prefixEnvVar "METRICS_PORT",
    Value := FlagValue.int 7300, Required := false }

/-- Go `flags.PprofEnabledFlag`. -/
def PprofEnabledFlag : Flag :=
  { kind := FlagKind.BoolFlag, Name := "pprof.enabled", EnvVar := prefixEnvVar "PPROF_ENABLED",
    Value := FlagValue.bool, Required := false }

/-- Go `flags.PprofAddrFlag`. -/
def PprofAddrFlag : Flag :=
  { kind := FlagKind.StringFlag, Name := "pprof.addr", EnvVar := prefixEnvVar "PPROF_ADDR",
    Value := FlagValue.str "0.0.0.0", Required := false }

/-- Go `flags.PprofPortFlag`. -/
def PprofPortFlag : Flag :=
  { kind := FlagKind.IntFlag, Name := "pprof.port", EnvVar := prefixEnvVar "PPROF_PORT",
    Value := FlagValue.int 6060, Required := false }

/-- Go `flags.SnapshotLog`. -/
def SnapshotLog : Flag :=
  { kind := FlagKind.StringFlag, Name := "snapshotlog.file", EnvVar := prefixEnvVar "SNAPSHOT_LOG",
    Value := FlagValue.str "", Required := false }

/-- Go `flags.HeartbeatEnabledFlag`. -/
def HeartbeatEnabledFlag : Flag :=
  { kind := FlagKind.BoolFlag, Name := "heartbeat.enabled", EnvVar := prefixEnvVar "HEARTBEAT_ENABLED",
    Value := FlagValue.bool, Required := false }

/-- Go `flags.HeartbeatMonikerFlag`. -/
def HeartbeatMonikerFlag : Flag :=
  { kind := FlagKind.StringFlag, Name := "heartbeat.moniker", EnvVar := prefixEnvVar "HEARTBEAT_MONIKER",
    Value := FlagValue.str "", Required := false }

/-- Go `flags.HeartbeatURLFlag`. -/
def HeartbeatURLFlag : Flag :=
  { kind := FlagKind.StringFlag, Name := "heartbeat.url", EnvVar := prefixEnvVar "HEARTBEAT_URL",
    Value := FlagValue.str "https://heartbeat.kanvas-main.io", Required := false }

/-- Go `flags.BackupL2UnsafeSyncRPC`. -/
def BackupL2UnsafeSyncRPC : Flag :=
  { kind := FlagKind.StringFlag, Name := "l2.backup-unsafe-sync-rpc", EnvVar := prefixEnvVar "L2_BACKUP_UNSAFE_SYNC_RPC",
    Value := FlagValue.str "", Required := false }

/-- Go `requiredFlags`. -/
def requiredFlags : List Flag :=
  [L1NodeAddr, L2EngineAddr, RPCListenAddr, RPCListenPort]

/-- Go `optionalFlags`, as declared. -/
def optionalFlags : List Flag :=
  [RollupConfig, Network, L1TrustRPC, L1RPCProviderKind, L2EngineJWTSecret, SyncerL1Confs,
   ProposerEnabledFlag, ProposerStoppedFlag, ProposerL1Confs, L1EpochPollIntervalFlag,
   RPCEnableAdmin, MetricsEnabledFlag, MetricsAddrFlag, MetricsPortFlag, PprofEnabledFlag,
   PprofAddrFlag, PprofPortFlag, SnapshotLog, HeartbeatEnabledFlag, HeartbeatMonikerFlag,
   HeartbeatURLFlag, BackupL2UnsafeSyncRPC]

/-- Go `func init()`: the values of `optionalFlags` and of `Flags` after
package initialisation.  The flags of package `p2p` and the function
`klog.CLIFlags` are parameters. -/
def init (p2pFlags : List Flag) (CLIFlags : String → List Flag) : List Flag × List Flag :=
  let optionalFlags1 := optionalFlags ++ p2pFlags
  let optionalFlags2 := optionalFlags1 ++ CLIFlags envVarPrefix
  (optionalFlags2, requiredFlags ++ optionalFlags2)

/-- Go `Flags` after package initialisation. -/
def Flags (p2pFlags : List Flag) (CLIFlags : String → List Flag) : List Flag :=
  (init p2pFlags CLIFlags).2

/-- The flags that flags.go defines in its `var` block, in the order of the
file. -/
def definedFlags : List Flag :=
  [L1NodeAddr, L2EngineAddr, RollupConfig, Network, RPCListenAddr, RPCListenPort,
   RPCEnableAdmin, L1TrustRPC, L1RPCProviderKind, L2EngineJWTSecret, SyncerL1Confs,
   ProposerEnabledFlag, ProposerStoppedFlag, ProposerL1Confs, L1EpochPollIntervalFlag,
   MetricsEnabledFlag, MetricsAddrFlag, MetricsPortFlag, PprofEnabledFlag, PprofAddrFlag,
   PprofPortFlag, SnapshotLog, HeartbeatEnabledFlag, HeartbeatMonikerFlag, HeartbeatURLFlag,
   BackupL2UnsafeSyncRPC]

/-- Go `*cli.Context`, as the two global lookups `CheckRequired` makes. -/
structure CLIContext where
  GlobalString : String → String
  GlobalIsSet : String → Bool

/-- Go `CheckRequired`. -/
def CheckRequired (ctx : CLIContext) : Option GoError :=
  let l1NodeAddr := ctx.GlobalString L1NodeAddr.Name
  if l1NodeAddr = "" then
    some (GoError.other ("flag " ++ L1NodeAddr.Name ++ " is required"))
  else
    let l2EngineAddr := ctx.GlobalString L2EngineAddr.Name
    if l2EngineAddr = "" then
      some (GoError.other ("flag " ++ L2EngineAddr.Name ++ " is required"))
    else
      let rollupConfig := ctx.GlobalString RollupConfig.Name
      let network := ctx.GlobalString Network.Name
      if rollupConfig = "" ∧ network = "" then
        some (GoError.other
          ("flag " ++ RollupConfig.Name ++ " or " ++ Network.Name ++ " is required"))
      else if rollupConfig ≠ "" ∧ network ≠ "" then
        some (GoError.other
          ("cannot specify both " ++ RollupConfig.Name ++ " and " ++ Network.Name))
      else
        let rpcListenAddr := ctx.GlobalString RPCListenAddr.Name
        if rpcListenAddr = "" then
          some (GoError.other ("flag " ++ RPCListenAddr.Name ++ " is required"))
        else if ¬ ctx.GlobalIsSet RPCListenPort.Name = true then
          some (GoError.other ("flag " ++ RPCListenPort.Name ++ " is required"))
        else none

/-- The characters of an upper snake case name: `A` to `Z`, `0` to `9` and
the underscore. -/
def isUpperSnakeChar (ch : Char) : Bool :=
  ch.isUpper || ch.isDigit || ch == '_'

/-- A required flag `name` that the context leaves without a value: `l1`,
`l2` or `rpc.addr` with the empty string, or `rpc.port` not set. -/
def missing (ctx : CLIContext) (name : String) : Prop :=
  (name = "l1" ∧ ctx.GlobalString "l1" = "") ∨
  (name = "l2" ∧ ctx.GlobalString "l2" = "") ∨
  (name = "rpc.addr" ∧ ctx.GlobalString "rpc.addr" = "") ∨
  (name = "rpc.port" ∧ ctx.GlobalIsSet "rpc.port" = false)

/-- A context given as the list of the values that `GlobalString` returns,
defaults applied, and the list of the flags that are set; a flag that is not
listed reads as the empty string. -/
def contextOf (values : List (String × String)) (set : List String) : CLIContext :=
  { GlobalString := fun name => ((values.find? fun kv => kv.1 == name).map Prod.snd).getD ""
    GlobalIsSet := fun name => set.contains name }

/-- A command line with `l1`, `l2`, `rollup.config` and `network` given,
`rpc.port` set and `rpc.addr` left empty. -/
def bothChainsCtx : CLIContext :=
  contextOf [("l1", "http://l1"), ("l2", "http://l2"), ("rollup.config", "rollup.json"),
    ("network", "kanvas")] ["rpc.port"]

/-- A command line on which `l1` is given as the empty string, in place of
its default, with `l2`, `rpc.addr` and `rpc.port` given and neither
`rollup.config` nor `network`. -/
def noL1Ctx : CLIContext :=
  contextOf [("l2", "http://l2"), ("rpc.addr", "0.0.0.0")] ["rpc.port"]

/-- A command line with `l1`, `l2` and `network` given and neither `rpc.addr`
nor `rpc.port`. -/
def noRpcCtx : CLIContext :=
  contextOf [("l1", "http://l1"), ("l2", "http://l2"), ("network", "kanvas")] []

/-- A complete command line: `l1`, `l2`, `network`, `rpc.addr` and
`rpc.port`. -/
def completeCtx : CLIContext :=
  contextOf [("l1", "http://l1"), ("l2", "http://l2"), ("network", "kanvas"),
    ("rpc.addr", "0.0.0.0")] ["rpc.port"]

/-- A command line with `l1`, `l2`, `rpc.addr` and `rpc.port` given and
neither `rollup.config` nor `network`. -/
def noChainCtx : CLIContext :=
  contextOf [("l1", "http://l1"), ("l2", "http://l2"), ("rpc.addr", "0.0.0.0")] ["rpc.port"]

end flags

/-! ## Metrics configuration (`utils/service/metrics/cli.go`) -/

namespace metrics

/-- Go `math.MaxUint16`. -/
def MaxUint16 : Int := 65535

/-- Go `metrics.CLIConfig`. -/
structure CLIConfig where
  Enabled : Bool
  ListenAddr : String
  ListenPort : Int
deriving DecidableEq, Repr

/-- Go `CLIConfig.Check`. -/
def CLIConfig.Check (m : CLIConfig) : Option GoError :=
  if ¬ m.Enabled = true then none
  else if m.ListenPort < 0 ∨ m.ListenPort > MaxUint16 then
    some (GoError.other "invalid metrics port")
  else none

end metrics

/-! ## Rollup client (`components/node/sources/rollupclient.go`) -/

/-- Go conversion `hexutil.Uint64(n)`. -/
def hexutil.Uint64 (n : Nat) : Nat := n % 2 ^ 64

namespace sources

/-- An argument of an RPC call. -/
inductive RPCArg where
  | uint64 (n : Nat)
deriving DecidableEq, Repr

/-- The variable into which `CallContext` decodes the reply: one of the four
result types of the rollup client. -/
inductive RPCResult where
  | output (v : Option OutputResponse)
  | status (v : Option SyncStatus)
  | config (v : Option Config)
  | string (v : String)
deriving DecidableEq

/-- The `*eth.OutputResponse` held by a result variable. -/
def RPCResult.asOutput : RPCResult → Option OutputResponse
  | .output v => v
  | _ => none

/-- The `*eth.SyncStatus` held by a result variable. -/
def RPCResult.asStatus : RPCResult → Option SyncStatus
  | .status v => v
  | _ => none

/-- The `*rollup.Config` held by a result variable. -/
def RPCResult.asConfig : RPCResult → Option Config
  | .config v => v
  | _ => none

/-- The `string` held by a result variable. -/
def RPCResult.asString : RPCResult → String
  | .string v => v
  | _ => ""

/-- Go interface `client.RPC`, the one method the rollup client calls:
`CallContext(ctx, result, method, args...)` takes the result variable and
returns it as the call left it, with the error. -/
structure RPC (σ : Type) where
  CallContext : Context → RPCResult → String → List RPCArg → σ →
    (RPCResult × Option GoError) × σ

/-- Go `sources.RollupClient`. -/
structure RollupClient (σ : Type) where
  rpc : RPC σ

/-- Go `NewRollupClient`. -/
def NewRollupClient {σ : Type} (rpc : RPC σ) : RollupClient σ := { rpc := rpc }

/-- Go `(*RollupClient).OutputAtBlock`. -/
def RollupClient.OutputAtBlock {σ : Type} (r : RollupClient σ) (ctx : Context) (blockNum : Nat)
    (s : σ) : (Option OutputResponse × Option GoError) × σ :=
  let call := r.rpc.CallContext ctx (RPCResult.output none) "kanvas_outputAtBlock"
    [RPCArg.uint64 (hexutil.Uint64 blockNum)] s
  ((call.1.1.asOutput, call.1.2), call.2)

/-- Go `(*RollupClient).SyncStatus`. -/
def RollupClient.SyncStatus {σ : Type} (r : RollupClient σ) (ctx : Context) (s : σ) :
    (Option SyncStatus × Option GoError) × σ :=
  let call := r.rpc.CallContext ctx (RPCResult.status none) "kanvas_syncStatus" [] s
  ((call.1.1.asStatus, call.1.2), call.2)

/-- Go `(*RollupClient).RollupConfig`. -/
def RollupClient.RollupConfig {σ : Type} (r : RollupClient σ) (ctx : Context) (s : σ) :
    (Option Config × Option GoError) × σ :=
  let call := r.rpc.CallContext ctx (RPCResult.config none) "kanvas_rollupConfig" [] s
  ((call.1.1.asConfig, call.1.2), call.2)

/-- Go `(*RollupClient).Version`. -/
def RollupClient.Version {σ : Type} (r : RollupClient σ) (ctx : Context) (s : σ) :
    (String × Option GoError) × σ :=
  let call := r.rpc.CallContext ctx (RPCResult.string "") "kanvas_version" [] s
  ((call.1.1.asString, call.1.2), call.2)

/-- A transport that writes each call to the trace and leaves the result
variable as it was. -/
def traceRPC : RPC Trace :=
  { CallContext := fun _ result method args s =>
      ((result, none), s ++ [method ++ " " ++ toString (args.map fun a =>
        match a with
        | RPCArg.uint64 k => k)]) }

end sources

/-! ## Driver composition (`components/node/rollup/driver/driver.go`) -/

namespace driver

/-- Go `log.Logger`, as the identity of the logger passed in. -/
structure LogHandle where
  id : Nat
deriving DecidableEq, Repr

/-- Go interface `driver.Metrics`, as the identity of the value passed in. -/
structure Metrics where
  id : Nat
deriving DecidableEq, Repr

/-- Go interface `driver.L1Chain`, as the identity of the value passed in. -/
structure L1Chain where
  id : Nat
deriving DecidableEq, Repr

/-- Go interface `driver.L2Chain`, as the identity of the value passed in. -/
structure L2Chain where
  id : Nat
deriving DecidableEq, Repr

/-- Go interface `driver.Network`, as the identity of the value passed in. -/
structure Network where
  id : Nat
deriving DecidableEq, Repr

/-- Go `sources.SyncClient`, as the identity of the value passed in. -/
structure SyncClient where
  id : Nat
deriving DecidableEq, Repr

/-- Go `driver.Config`: the two confirmation depths that `NewDriver` reads. -/
structure Config where
  SyncerConfDepth : Nat
  ProposerConfDepth : Nat
deriving DecidableEq, Repr

/-- Go `eth.ExecutionPayload`, as the identification of the block. -/
structure ExecutionPayload where
  ParentHash : Bytes32
  BlockNumber : Nat
  BlockHash : Bytes32
deriving DecidableEq

/-- A Go channel: its capacity and the values buffered in it. -/
structure Chan (α : Type) where
  cap : Nat
  buf : List α
deriving DecidableEq

/-- Go `make(chan T, cap)`; `make(chan T)` is capacity 0. -/
def makeChan (α : Type) (cap : Nat) : Chan α := { cap := cap, buf := [] }

/-- Go `hashAndError`. -/
structure hashAndError where
  hash : Bytes32
  err : Option GoError
deriving DecidableEq

/-- Go `hashAndErrorChannel`. -/
structure hashAndErrorChannel where
  hash : Bytes32
  err : Chan (Option GoError)
deriving DecidableEq

/-- Go `*L1State`: the object that a call of `NewL1State` allocates, with the
identity `id` of the allocation and the arguments of the call. -/
structure L1State where
  id : Nat
  log : LogHandle
  metrics : Metrics
deriving DecidableEq, Repr

/-- Modelled from the spec: `NewL1State(log, metrics)` makes the L1 state
tracker (component A); the constructor is not among the sources.  The model
allocates a new object, numbered `next`, that keeps the arguments. -/
def NewL1State (log : LogHandle) (metrics : Metrics) (next : Nat) : L1State × Nat :=
  ({ id := next, log := log, metrics := metrics }, next + 1)

/-- The method value `l1State.L1Head`: the head query bound to its tracker. -/
structure L1HeadFunc where
  receiver : L1State
deriving DecidableEq, Repr

/-- Go method value `l1State.L1Head`. -/
def L1State.L1Head (l1State : L1State) : L1HeadFunc := { receiver := l1State }

/-- The values of Go interface `derive.L1Fetcher` that `NewDriver` handles:
the L1 chain itself, or an allocated confirmation depth view of a fetcher. -/
inductive L1Fetcher where
  | chain (l1 : L1Chain)
  | confDepth (id : Nat) (depth : Nat) (l1Head : L1HeadFunc) (fetcher : L1Fetcher)
deriving DecidableEq, Repr

/-- Modelled from the spec: `NewConfDepth(depth, l1Head, fetcher)` makes the
confirmation depth view (component B) from "an underlying L1 fetcher and a
depth N and a live pointer to L1 head"; the constructor is not among the
sources.  The model allocates a new object, numbered `next`. -/
def NewConfDepth (depth : Nat) (l1Head : L1HeadFunc) (fetcher : L1Fetcher) (next : Nat) :
    L1Fetcher × Nat :=
  (L1Fetcher.confDepth next depth l1Head fetcher, next + 1)

/-- Go `*L1OriginSelector`: the allocated object with the arguments of
`NewL1OriginSelector`. -/
structure L1OriginSelector where
  id : Nat
  log : LogHandle
  cfg : Option Kanvas.Config
  l1 : L1Fetcher
deriving DecidableEq

/-- Modelled from the spec: `NewL1OriginSelector(log, cfg, l1)` makes the L1
origin selector (component C), which reads L1 through the fetcher it is
given; the constructor is not among the sources.  The model allocates a new
object, numbered `next`. -/
def NewL1OriginSelector (log : LogHandle) (cfg : Option Kanvas.Config) (l1 : L1Fetcher)
    (next : Nat) : L1OriginSelector × Nat :=
  ({ id := next, log := log, cfg := cfg, l1 := l1 }, next + 1)

/-- Go `*derive.DerivationPipeline`: the allocated object with the arguments
of `derive.NewDerivationPipeline`. -/
structure DerivationPipeline where
  id : Nat
  log : LogHandle
  cfg : Option Kanvas.Config
  l1Fetcher : L1Fetcher
  engine : L2Chain
  metrics : Metrics
deriving DecidableEq

/-- Modelled from the spec:
`derive.NewDerivationPipeline(log, cfg, l1Fetcher, engine, metrics)` makes the
derivation pipeline (component E), which reads L1 through the fetcher it is
given; the constructor is not among the sources.  The model allocates a new
object, numbered `next`. -/
def derive.NewDerivationPipeline (log : LogHandle) (cfg : Option Kanvas.Config)
    (l1Fetcher : L1Fetcher) (engine : L2Chain) (metrics : Metrics) (next : Nat) :
    DerivationPipeline × Nat :=
  ({ id := next, log := log, cfg := cfg, l1Fetcher := l1Fetcher, engine := engine,
     metrics := metrics }, next + 1)

/-- Go `*derive.FetchingAttributesBuilder`: the allocated object with the
arguments of `derive.NewFetchingAttributesBuilder`. -/
structure FetchingAttributesBuilder where
  id : Nat
  cfg : Option Kanvas.Config
  l1 : L1Fetcher
  l2 : L2Chain
deriving DecidableEq

/-- Modelled from the spec: `derive.NewFetchingAttributesBuilder(cfg, l1, l2)`
makes the attributes builder (component D); the constructor is not among the
sources.  The model allocates a new object, numbered `next`. -/
def derive.NewFetchingAttributesBuilder (cfg : Option Kanvas.Config) (l1 : L1Fetcher)
    (l2 : L2Chain) (next : Nat) : FetchingAttributesBuilder × Nat :=
  ({ id := next, cfg := cfg, l1 := l1, l2 := l2 }, next + 1)

/-- Go `*MeteredEngine`: the allocated object with the arguments of
`NewMeteredEngine`. -/
structure MeteredEngine where
  id : Nat
  cfg : Option Kanvas.Config
  inner : DerivationPipeline
  metrics : Metrics
  log : LogHandle
deriving DecidableEq

/-- Modelled from the spec: `NewMeteredEngine(cfg, inner, metrics, log)` wraps
the engine it is given; the constructor is not among the sources.  The model
allocates a new object, numbered `next`. -/
def NewMeteredEngine (cfg : Option Kanvas.Config) (inner : DerivationPipeline)
    (metrics : Metrics) (log : LogHandle) (next : Nat) : MeteredEngine × Nat :=
  ({ id := next, cfg := cfg, inner := inner, metrics := metrics, log := log }, next + 1)

/-- Go `*Proposer`: the allocated object with the arguments of `NewProposer`. -/
structure Proposer where
  id : Nat
  log : LogHandle
  cfg : Option Kanvas.Config
  engine : MeteredEngine
  attrBuilder : FetchingAttributesBuilder
  l1OriginSelector : L1OriginSelector
  metrics : Metrics
deriving DecidableEq

/-- Modelled from the spec:
`NewProposer(log, cfg, engine, attrBuilder, l1OriginSelector, metrics)` makes
the proposer (component G), which builds on the engine it is given; the
constructor is not among the sources.  The model allocates a new object,
numbered `next`. -/
def NewProposer (log : LogHandle) (cfg : Option Kanvas.Config) (engine : MeteredEngine)
    (attrBuilder : FetchingAttributesBuilder) (l1OriginSelector : L1OriginSelector)
    (metrics : Metrics) (next : Nat) : Proposer × Nat :=
  ({ id := next, log := log, cfg := cfg, engine := engine, attrBuilder := attrBuilder,
     l1OriginSelector := l1OriginSelector, metrics := metrics }, next + 1)

/-- The identity of the object behind a fetcher, if it is an allocated view. -/
def L1Fetcher.id? : L1Fetcher → Option Nat
  | .chain _ => none
  | .confDepth id _ _ _ => some id

/-- Go `driver.Driver`, with the fields that `NewDriver` sets. -/
structure Driver where
  l1State : L1State
  derivation : DerivationPipeline
  stateReq : Chan (Chan Unit)
  forceReset : Chan (Chan Unit)
  startProposer : Chan hashAndErrorChannel
  stopProposer : Chan (Chan hashAndError)
  config : Option Kanvas.Config
  driverConfig : Config
  done : Chan Unit
  log : LogHandle
  snapshotLog : LogHandle
  l1 : L1Chain
  l2 : L2Chain
  proposer : Proposer
  network : Network
  metrics : Metrics
  l1HeadSig : Chan L1BlockRef
  l1SafeSig : Chan L1BlockRef
  l1FinalizedSig : Chan L1BlockRef
  unsafeL2Payloads : Chan (Option ExecutionPayload)
  L2SyncCl : Option SyncClient
deriving DecidableEq

/-- Go `NewDriver`.  The last argument numbers the next object to allocate;
every constructor call takes the number its predecessor left, so two objects
are the same instance exactly when they carry the same number. -/
def NewDriver (driverCfg : Config) (cfg : Option Kanvas.Config) (l2 : L2Chain) (l1 : L1Chain)
    (syncClient : Option SyncClient) (network : Network) (log : LogHandle)
    (snapshotLog : LogHandle) (metrics : Metrics) (next : Nat) : Driver × Nat :=
  let l1State := NewL1State log metrics next
  let proposerConfDepth :=
    NewConfDepth driverCfg.ProposerConfDepth l1State.1.L1Head (L1Fetcher.chain l1) l1State.2
  let findL1Origin := NewL1OriginSelector log cfg proposerConfDepth.1 proposerConfDepth.2
  let syncConfDepth :=
    NewConfDepth driverCfg.SyncerConfDepth l1State.1.L1Head (L1Fetcher.chain l1) findL1Origin.2
  let derivationPipeline :=
    derive.NewDerivationPipeline log cfg syncConfDepth.1 l2 metrics syncConfDepth.2
  let attrBuilder :=
    derive.NewFetchingAttributesBuilder cfg (L1Fetcher.chain l1) l2 derivationPipeline.2
  let engine := derivationPipeline.1
  let meteredEngine := NewMeteredEngine cfg engine metrics log attrBuilder.2
  let proposer :=
    NewProposer log cfg meteredEngine.1 attrBuilder.1 findL1Origin.1 metrics meteredEngine.2
  ({ l1State := l1State.1
     derivation := derivationPipeline.1
     stateReq := makeChan (Chan Unit) 0
     forceReset := makeChan (Chan Unit) 10
     startProposer := makeChan hashAndErrorChannel 10
     stopProposer := makeChan (Chan hashAndError) 10
     config := cfg
     driverConfig := driverCfg
     done := makeChan Unit 0
     log := log
     snapshotLog := snapshotLog
     l1 := l1
     l2 := l2
     proposer := proposer.1
     network := network
     metrics := metrics
     l1HeadSig := makeChan L1BlockRef 10
     l1SafeSig := makeChan L1BlockRef 10
     l1FinalizedSig := makeChan L1BlockRef 10
     unsafeL2Payloads := makeChan (Option ExecutionPayload) 10
     L2SyncCl := syncClient }, proposer.2)

/-- The identities of the eight objects that make up a driver: the tracker,
the pipeline and its view, the proposer, its metered engine, its attributes
builder, its origin selector and that selector's view. -/
def Driver.objectIds (d : Driver) : List (Option Nat) :=
  [some d.l1State.id, some d.derivation.id, d.derivation.l1Fetcher.id?, some d.proposer.id,
   some d.proposer.engine.id, some d.proposer.attrBuilder.id,
   some d.proposer.l1OriginSelector.id, d.proposer.l1OriginSelector.l1.id?]

/-- A variant of `NewDriver` that allocates a second tracker for the two views
and a second pipeline for the proposer: the wiring that the composition
property excludes. -/
def NewDriverSplit (driverCfg : Config) (cfg : Option Kanvas.Config) (l2 : L2Chain)
    (l1 : L1Chain) (syncClient : Option SyncClient) (network : Network) (log : LogHandle)
    (snapshotLog : LogHandle) (metrics : Metrics) (next : Nat) : Driver × Nat :=
  let l1State := NewL1State log metrics next
  let otherState := NewL1State log metrics l1State.2
  let proposerConfDepth :=
    NewConfDepth driverCfg.ProposerConfDepth otherState.1.L1Head (L1Fetcher.chain l1)
      otherState.2
  let findL1Origin := NewL1OriginSelector log cfg proposerConfDepth.1 proposerConfDepth.2
  let syncConfDepth :=
    NewConfDepth driverCfg.SyncerConfDepth otherState.1.L1Head (L1Fetcher.chain l1)
      findL1Origin.2
  let derivationPipeline :=
    derive.NewDerivationPipeline log cfg syncConfDepth.1 l2 metrics syncConfDepth.2
  let otherPipeline :=
    derive.NewDerivationPipeline log cfg syncConfDepth.1 l2 metrics derivationPipeline.2
  let attrBuilder :=
    derive.NewFetchingAttributesBuilder cfg (L1Fetcher.chain l1) l2 otherPipeline.2
  let meteredEngine := NewMeteredEngine cfg otherPipeline.1 metrics log attrBuilder.2
  let proposer :=
    NewProposer log cfg meteredEngine.1 attrBuilder.1 findL1Origin.1 metrics meteredEngine.2
  ({ (NewDriver driverCfg cfg l2 l1 syncClient network log snapshotLog metrics next).1 with
     l1State := l1State.1
     derivation := derivationPipeline.1
     proposer := proposer.1 }, proposer.2)

/-- The collaborators of the driver fixtures. -/
def testDriver (next : Nat) : Driver × Nat :=
  NewDriver { SyncerConfDepth := 0, ProposerConfDepth := 4 } none ⟨2⟩ ⟨1⟩ none ⟨3⟩ ⟨4⟩ ⟨5⟩ ⟨6⟩
    next

end driver

/-! ## The node RPC handler `kanvas_outputAtBlock` -/

section OutputAtBlock

set_option maxRecDepth 8000

variable {σ : Type}

/-- The handler returns the result of its body; the metrics calls only touch
the world state. -/
theorem outputAtBlock_result (ext : Ext) (n : nodeAPI σ) (ctx : Context) (number : Nat)
    (s : σ) :
    (n.OutputAtBlock ext ctx number s).1 =
      (n.outputAtBlockBody ext ctx number (n.entered s)).1 := rfl

/-- Step 1 of the body fails: the driver lookup returned an error. -/
theorem body_driver_error (ext : Ext) (n : nodeAPI σ) (ctx : Context) (number : Nat) (s : σ)
    (e : GoError) (hd : (n.driverReply ctx number s).1.2.2 = some e) :
    n.outputAtBlockBody ext ctx number s =
      ((none, some (GoError.wrap "failed to get L2 block ref with sync status: " e)),
       (n.driverReply ctx number s).2) := by
  unfold nodeAPI.outputAtBlockBody
  unfold nodeAPI.driverReply at hd ⊢
  rcases hx : n.dr.BlockRefWithStatus ctx (toUint64 number) s with ⟨⟨ref, status, err⟩, s1⟩
  rw [hx] at hd
  simp only at hd
  subst hd
  rfl

/-- Step 2 of the body fails: the header lookup returned an error. -/
theorem body_header_error (ext : Ext) (n : nodeAPI σ) (ctx : Context) (number : Nat) (s : σ)
    (e : GoError) (hd : (n.driverReply ctx number s).1.2.2 = none)
    (hh : (n.headerReply ctx number s).1.2 = some e) :
    n.outputAtBlockBody ext ctx number s =
      ((none, some (GoError.wrap ("failed to get L2 block by hash " ++
          ext.refString (n.driverReply ctx number s).1.1 ++ ": ") e)),
       (n.headerReply ctx number s).2) := by
  unfold nodeAPI.outputAtBlockBody
  unfold nodeAPI.headerReply at hh ⊢
  unfold nodeAPI.driverReply at hd hh ⊢
  rcases hx : n.dr.BlockRefWithStatus ctx (toUint64 number) s with ⟨⟨ref, status, err⟩, s1⟩
  rw [hx] at hd hh
  simp only at hd hh
  subst hd
  rcases hy : n.client.InfoByHash ctx ref.Hash s1 with ⟨⟨head, err⟩, s2⟩
  rw [hy] at hh
  simp only at hh
  subst hh
  simp only [hy]

/-- Step 3 of the body fails: the header lookup returned a nil header. -/
theorem body_header_nil (ext : Ext) (n : nodeAPI σ) (ctx : Context) (number : Nat) (s : σ)
    (hd : (n.driverReply ctx number s).1.2.2 = none)
    (hh : (n.headerReply ctx number s).1 = (none, none)) :
    n.outputAtBlockBody ext ctx number s =
      ((none, some GoError.notFound), (n.headerReply ctx number s).2) := by
  unfold nodeAPI.outputAtBlockBody
  unfold nodeAPI.headerReply at hh ⊢
  unfold nodeAPI.driverReply at hd hh ⊢
  rcases hx : n.dr.BlockRefWithStatus ctx (toUint64 number) s with ⟨⟨ref, status, err⟩, s1⟩
  rw [hx] at hd hh
  simp only at hd hh
  subst hd
  rcases hy : n.client.InfoByHash ctx ref.Hash s1 with ⟨⟨head, err⟩, s2⟩
  rw [hy] at hh
  simp only [Prod.mk.injEq] at hh
  obtain ⟨h1, h2⟩ := hh
  subst h1 h2
  simp only [hy]

/-- Step 4 of the body fails: the proof lookup returned an error. -/
theorem body_proof_error (ext : Ext) (n : nodeAPI σ) (ctx : Context) (number : Nat) (s : σ)
    (head : BlockInfo) (e : GoError) (hd : (n.driverReply ctx number s).1.2.2 = none)
    (hh : (n.headerReply ctx number s).1 = (some head, none))
    (hp : (n.proofReply ext ctx number s).1.2 = some e) :
    n.outputAtBlockBody ext ctx number s =
      ((none, some (GoError.wrap ("failed to get contract proof at block " ++
          ext.refString (n.driverReply ctx number s).1.1 ++ ": ") e)),
       (n.proofReply ext ctx number s).2) := by
  unfold nodeAPI.outputAtBlockBody
  unfold nodeAPI.proofReply at hp ⊢
  unfold nodeAPI.headerReply at hh hp ⊢
  unfold nodeAPI.driverReply at hd hh hp ⊢
  rcases hx : n.dr.BlockRefWithStatus ctx (toUint64 number) s with ⟨⟨ref, status, err⟩, s1⟩
  rw [hx] at hd hh hp
  simp only at hd hh hp
  subst hd
  rcases hy : n.client.InfoByHash ctx ref.Hash s1 with ⟨⟨head1, err⟩, s2⟩
  rw [hy] at hh hp
  simp only [Prod.mk.injEq] at hh hp
  obtain ⟨h1, h2⟩ := hh
  subst h1 h2
  rcases hz : n.client.GetProof ctx ext.L2ToL1MessagePasserAddr [] (ext.hashString ref.Hash) s2
    with ⟨⟨proof, err⟩, s3⟩
  rw [hz] at hp
  simp only at hp
  subst hp
  simp only [hy, hz]

/-- Step 5 of the body fails: the proof lookup returned a nil proof. -/
theorem body_proof_nil (ext : Ext) (n : nodeAPI σ) (ctx : Context) (number : Nat) (s : σ)
    (head : BlockInfo) (hd : (n.driverReply ctx number s).1.2.2 = none)
    (hh : (n.headerReply ctx number s).1 = (some head, none))
    (hp : (n.proofReply ext ctx number s).1 = (none, none)) :
    n.outputAtBlockBody ext ctx number s =
      ((none, some (GoError.wrap "proof " GoError.notFound)),
       (n.proofReply ext ctx number s).2) := by
  unfold nodeAPI.outputAtBlockBody
  unfold nodeAPI.proofReply at hp ⊢
  unfold nodeAPI.headerReply at hh hp ⊢
  unfold nodeAPI.driverReply at hd hh hp ⊢
  rcases hx : n.dr.BlockRefWithStatus ctx (toUint64 number) s with ⟨⟨ref, status, err⟩, s1⟩
  rw [hx] at hd hh hp
  simp only at hd hh hp
  subst hd
  rcases hy : n.client.InfoByHash ctx ref.Hash s1 with ⟨⟨head1, err⟩, s2⟩
  rw [hy] at hh hp
  simp only [Prod.mk.injEq] at hh hp
  obtain ⟨h1, h2⟩ := hh
  subst h1 h2
  rcases hz : n.client.GetProof ctx ext.L2ToL1MessagePasserAddr [] (ext.hashString ref.Hash) s2
    with ⟨⟨proof, err⟩, s3⟩
  rw [hz] at hp
  simp only [Prod.mk.injEq] at hp
  obtain ⟨h1, h2⟩ := hp
  subst h1 h2
  simp only [hy, hz]

/-- Step 6 of the body fails: the proof does not verify against the state
root of the header.  The failure is logged and returned. -/
theorem body_verify_error (ext : Ext) (n : nodeAPI σ) (ctx : Context) (number : Nat) (s : σ)
    (head : BlockInfo) (proof : AccountResult) (e : GoError)
    (hd : (n.driverReply ctx number s).1.2.2 = none)
    (hh : (n.headerReply ctx number s).1 = (some head, none))
    (hp : (n.proofReply ext ctx number s).1 = (some proof, none))
    (hv : ext.Verify proof head.Root = some e) :
    n.outputAtBlockBody ext ctx number s =
      ((none, some (GoError.wrap ("invalid withdrawal root hash, state root was " ++
          ext.hashString head.Root ++ ": ") e)),
       n.log.Error "invalid withdrawal root detected in block"
        [("stateRoot", LogValue.hash head.Root), ("blocknum", LogValue.num number),
         ("msg", LogValue.err e)] (n.proofReply ext ctx number s).2) := by
  unfold nodeAPI.outputAtBlockBody
  unfold nodeAPI.proofReply at hp ⊢
  unfold nodeAPI.headerReply at hh hp ⊢
  unfold nodeAPI.driverReply at hd hh hp ⊢
  rcases hx : n.dr.BlockRefWithStatus ctx (toUint64 number) s with ⟨⟨ref, status, err⟩, s1⟩
  rw [hx] at hd hh hp
  simp only at hd hh hp
  subst hd
  rcases hy : n.client.InfoByHash ctx ref.Hash s1 with ⟨⟨head1, err⟩, s2⟩
  rw [hy] at hh hp
  simp only [Prod.mk.injEq] at hh hp
  obtain ⟨h1, h2⟩ := hh
  subst h1 h2
  rcases hz : n.client.GetProof ctx ext.L2ToL1MessagePasserAddr [] (ext.hashString ref.Hash) s2
    with ⟨⟨proof1, err⟩, s3⟩
  rw [hz] at hp
  simp only [Prod.mk.injEq] at hp
  obtain ⟨h1, h2⟩ := hp
  subst h1 h2
  simp only [hy, hz, hv]

/-- All steps of the body pass: the response is assembled from the driver's
ref and status, the header and the proof. -/
theorem body_success (ext : Ext) (n : nodeAPI σ) (ctx : Context) (number : Nat) (s : σ)
    (head : BlockInfo) (proof : AccountResult)
    (hd : (n.driverReply ctx number s).1.2.2 = none)
    (hh : (n.headerReply ctx number s).1 = (some head, none))
    (hp : (n.proofReply ext ctx number s).1 = (some proof, none))
    (hv : ext.Verify proof head.Root = none) :
    n.outputAtBlockBody ext ctx number s =
      ((some
        { Version := Bytes32.zero
          OutputRoot := ext.keccak256
            (Bytes32.zero.val ++ head.Root.val ++ proof.StorageHash.val ++ head.Hash.val)
          BlockRef := (n.driverReply ctx number s).1.1
          WithdrawalStorageRoot := proof.StorageHash
          StateRoot := head.Root
          Status := (n.driverReply ctx number s).1.2.1 }, none),
       (n.proofReply ext ctx number s).2) := by
  unfold nodeAPI.outputAtBlockBody
  unfold nodeAPI.proofReply at hp ⊢
  unfold nodeAPI.headerReply at hh hp ⊢
  unfold nodeAPI.driverReply at hd hh hp ⊢
  rcases hx : n.dr.BlockRefWithStatus ctx (toUint64 number) s with ⟨⟨ref, status, err⟩, s1⟩
  rw [hx] at hd hh hp
  simp only at hd hh hp
  subst hd
  rcases hy : n.client.InfoByHash ctx ref.Hash s1 with ⟨⟨head1, err⟩, s2⟩
  rw [hy] at hh hp
  simp only [Prod.mk.injEq] at hh hp
  obtain ⟨h1, h2⟩ := hh
  subst h1 h2
  rcases hz : n.client.GetProof ctx ext.L2ToL1MessagePasserAddr [] (ext.hashString ref.Hash) s2
    with ⟨⟨proof1, err⟩, s3⟩
  rw [hz] at hp
  simp only [Prod.mk.injEq] at hp
  obtain ⟨h1, h2⟩ := hp
  subst h1 h2
  simp only [hy, hz, hv, ComputeL2OutputRoot]

/-- C1: when `OutputAtBlock` succeeds, the response has the all-zero version,
the state root of the header fetched from the L2 client, the storage hash of
the fetched account proof, and the output root that `ComputeL2OutputRoot`
gives for exactly these values and the header hash, which is
`keccak256(0^32 || stateRoot || storageHash || blockHash)`. -/
theorem outputAtBlock_response (ext : Ext) (n : nodeAPI σ) (ctx : Context) (number : Nat)
    (s : σ) (hok : (n.OutputAtBlock ext ctx number s).1.2 = none) :
    ∃ head proof resp,
      (n.headerReply ctx number (n.entered s)).1 = (some head, none) ∧
      (n.proofReply ext ctx number (n.entered s)).1 = (some proof, none) ∧
      (n.OutputAtBlock ext ctx number s).1 = (some resp, none) ∧
      resp.Version = Bytes32.zero ∧
      resp.StateRoot = head.Root ∧
      resp.WithdrawalStorageRoot = proof.StorageHash ∧
      resp.OutputRoot = (ComputeL2OutputRoot ext (some
        { Version := Bytes32.zero, StateRoot := head.Root,
          MessagePasserStorageRoot := proof.StorageHash, LatestBlockhash := head.Hash })).1 ∧
      resp.OutputRoot = ext.keccak256
        (Bytes32.zero.val ++ head.Root.val ++ proof.StorageHash.val ++ head.Hash.val) := by
  rw [outputAtBlock_result] at hok ⊢
  rcases hd : (n.driverReply ctx number (n.entered s)).1.2.2 with _ | e
  swap
  · rw [body_driver_error ext n ctx number _ e hd] at hok
    simp at hok
  rcases hh : (n.headerReply ctx number (n.entered s)).1 with ⟨_ | head, _ | e⟩
  · rw [body_header_nil ext n ctx number _ hd hh] at hok
    simp at hok
  · rw [body_header_error ext n ctx number _ e hd (by rw [hh])] at hok
    simp at hok
  swap
  · rw [body_header_error ext n ctx number _ e hd (by rw [hh])] at hok
    simp at hok
  rcases hp : (n.proofReply ext ctx number (n.entered s)).1 with ⟨_ | proof, _ | e⟩
  · rw [body_proof_nil ext n ctx number _ head hd hh hp] at hok
    simp at hok
  · rw [body_proof_error ext n ctx number _ head e hd hh (by rw [hp])] at hok
    simp at hok
  swap
  · rw [body_proof_error ext n ctx number _ head e hd hh (by rw [hp])] at hok
    simp at hok
  rcases hv : ext.Verify proof head.Root with _ | e
  swap
  · rw [body_verify_error ext n ctx number _ head proof e hd hh hp hv] at hok
    simp at hok
  rw [body_success ext n ctx number _ head proof hd hh hp hv]
  exact ⟨head, proof, _, rfl, rfl, rfl, rfl, rfl, rfl, rfl, rfl⟩

/-- C1 on the fixtures: block 7 of a driver that knows the blocks below 10. -/
theorem outputAtBlock_response_witness :
    (goodNode.OutputAtBlock stubExt ⟨0⟩ 7 []).1.2 = none ∧
    ∃ head proof resp,
      (goodNode.headerReply ⟨0⟩ 7 (goodNode.entered [])).1 = (some head, none) ∧
      (goodNode.proofReply stubExt ⟨0⟩ 7 (goodNode.entered [])).1 = (some proof, none) ∧
      (goodNode.OutputAtBlock stubExt ⟨0⟩ 7 []).1 = (some resp, none) ∧
      resp.Version = Bytes32.zero ∧
      resp.StateRoot = head.Root ∧
      resp.WithdrawalStorageRoot = proof.StorageHash ∧
      resp.OutputRoot = (ComputeL2OutputRoot stubExt (some
        { Version := Bytes32.zero, StateRoot := head.Root,
          MessagePasserStorageRoot := proof.StorageHash, LatestBlockhash := head.Hash })).1 ∧
      resp.OutputRoot = stubExt.keccak256
        (Bytes32.zero.val ++ head.Root.val ++ proof.StorageHash.val ++ head.Hash.val) :=
  ⟨by decide, outputAtBlock_response stubExt goodNode ⟨0⟩ 7 [] (by decide)⟩

/-- C2: a response is returned only for a verified proof.  When the handler
reaches the verification and `proof.Verify(head.Root())` fails with `e`, it
returns no response and the error
`invalid withdrawal root hash, state root was <root>: <e>`, whose text starts
with `invalid withdrawal root`; and whenever a response is returned, the
proof it was built from verified against the state root of the fetched
header. -/
theorem outputAtBlock_requires_verified_proof (ext : Ext) (n : nodeAPI σ) (ctx : Context)
    (number : Nat) (s : σ) :
    (∀ head proof e,
      (n.driverReply ctx number (n.entered s)).1.2.2 = none →
      (n.headerReply ctx number (n.entered s)).1 = (some head, none) →
      (n.proofReply ext ctx number (n.entered s)).1 = (some proof, none) →
      ext.Verify proof head.Root = some e →
      ∃ err rest, (n.OutputAtBlock ext ctx number s).1 = (none, some err) ∧
        err = GoError.wrap ("invalid withdrawal root hash, state root was " ++
          ext.hashString head.Root ++ ": ") e ∧
        err.message = "invalid withdrawal root" ++ rest) ∧
    (∀ resp, (n.OutputAtBlock ext ctx number s).1.1 = some resp →
      ∃ head proof,
        (n.headerReply ctx number (n.entered s)).1 = (some head, none) ∧
        (n.proofReply ext ctx number (n.entered s)).1 = (some proof, none) ∧
        ext.Verify proof head.Root = none) := by
  constructor
  · intro head proof e hd hh hp hv
    rw [outputAtBlock_result, body_verify_error ext n ctx number _ head proof e hd hh hp hv]
    refine ⟨_, " hash, state root was " ++ ext.hashString head.Root ++ ": " ++ e.message,
      rfl, rfl, ?_⟩
    simp only [GoError.message, String.append_assoc]
    rfl
  · intro resp hok
    rw [outputAtBlock_result] at hok
    rcases hd : (n.driverReply ctx number (n.entered s)).1.2.2 with _ | e
    swap
    · rw [body_driver_error ext n ctx number _ e hd] at hok
      simp at hok
    rcases hh : (n.headerReply ctx number (n.entered s)).1 with ⟨_ | head, _ | e⟩
    · rw [body_header_nil ext n ctx number _ hd hh] at hok
      simp at hok
    · rw [body_header_error ext n ctx number _ e hd (by rw [hh])] at hok
      simp at hok
    swap
    · rw [body_header_error ext n ctx number _ e hd (by rw [hh])] at hok
      simp at hok
    rcases hp : (n.proofReply ext ctx number (n.entered s)).1 with ⟨_ | proof, _ | e⟩
    · rw [body_proof_nil ext n ctx number _ head hd hh hp] at hok
      simp at hok
    · rw [body_proof_error ext n ctx number _ head e hd hh (by rw [hp])] at hok
      simp at hok
    swap
    · rw [body_proof_error ext n ctx number _ head e hd hh (by rw [hp])] at hok
      simp at hok
    rcases hv : ext.Verify proof head.Root with _ | e
    swap
    · rw [body_verify_error ext n ctx number _ head proof e hd hh hp hv] at hok
      simp at hok
    exact ⟨head, proof, rfl, rfl, hv⟩

/-- C2 on the fixtures: the proof without nodes is refused, and the response
for block 7 comes from a proof that verifies. -/
theorem outputAtBlock_requires_verified_proof_witness :
    (∃ err rest, (badProofNode.OutputAtBlock stubExt ⟨0⟩ 7 []).1 = (none, some err) ∧
      err = GoError.wrap ("invalid withdrawal root hash, state root was " ++
        stubExt.hashString header7.Root ++ ": ") (GoError.other "bad proof") ∧
      err.message = "invalid withdrawal root" ++ rest) ∧
    (∃ head proof,
      (goodNode.headerReply ⟨0⟩ 7 (goodNode.entered [])).1 = (some head, none) ∧
      (goodNode.proofReply stubExt ⟨0⟩ 7 (goodNode.entered [])).1 = (some proof, none) ∧
      stubExt.Verify proof head.Root = none) :=
  ⟨(outputAtBlock_requires_verified_proof stubExt badProofNode ⟨0⟩ 7 []).1 header7
      { AccountProof := [], StorageHash := bytes32Of 0x33 } (GoError.other "bad proof")
      (by decide) (by decide) (by decide) (by decide),
   (outputAtBlock_requires_verified_proof stubExt goodNode ⟨0⟩ 7 []).2 response7 (by rfl)⟩

/-- C3: `kanvas_outputAtBlock` keeps `NotFound` apart for unknown blocks.
A block is unknown when the driver's lookup fails with an error that is or
wraps `ethereum.NotFound`, or the L2 client returns a nil header, or it
returns a nil proof; in each case the handler returns no response and an
error that is or wraps `ethereum.NotFound`. -/
theorem outputAtBlock_unknown_block (ext : Ext) (n : nodeAPI σ) (ctx : Context)
    (number : Nat) (s : σ)
    (hunknown :
      (∃ e, (n.driverReply ctx number (n.entered s)).1.2.2 = some e ∧ e.isNotFound = true) ∨
      ((n.driverReply ctx number (n.entered s)).1.2.2 = none ∧
        (n.headerReply ctx number (n.entered s)).1 = (none, none)) ∨
      ((n.driverReply ctx number (n.entered s)).1.2.2 = none ∧
        (∃ head, (n.headerReply ctx number (n.entered s)).1 = (some head, none)) ∧
        (n.proofReply ext ctx number (n.entered s)).1 = (none, none))) :
    ∃ err, (n.OutputAtBlock ext ctx number s).1 = (none, some err) ∧ err.isNotFound = true := by
  rw [outputAtBlock_result]
  rcases hunknown with ⟨e, hd, he⟩ | ⟨hd, hh⟩ | ⟨hd, ⟨head, hh⟩, hp⟩
  · rw [body_driver_error ext n ctx number _ e hd]
    exact ⟨_, rfl, he⟩
  · rw [body_header_nil ext n ctx number _ hd hh]
    exact ⟨_, rfl, rfl⟩
  · rw [body_proof_nil ext n ctx number _ head hd hh hp]
    exact ⟨_, rfl, rfl⟩

/-- C3 on the fixtures: block 17 is above the driver's tip, and the two
clients without header and without proof are asked for block 7. -/
theorem outputAtBlock_unknown_block_witness :
    (∃ err, (goodNode.OutputAtBlock stubExt ⟨0⟩ 17 []).1 = (none, some err) ∧
      err.isNotFound = true) ∧
    (∃ err, (nilHeaderNode.OutputAtBlock stubExt ⟨0⟩ 7 []).1 = (none, some err) ∧
      err.isNotFound = true) ∧
    (∃ err, (nilProofNode.OutputAtBlock stubExt ⟨0⟩ 7 []).1 = (none, some err) ∧
      err.isNotFound = true) :=
  ⟨outputAtBlock_unknown_block stubExt goodNode ⟨0⟩ 17 []
      (Or.inl ⟨GoError.notFound, by decide, by decide⟩),
   outputAtBlock_unknown_block stubExt nilHeaderNode ⟨0⟩ 7 []
      (Or.inr (Or.inl ⟨by decide, by decide⟩)),
   outputAtBlock_unknown_block stubExt nilProofNode ⟨0⟩ 7 []
      (Or.inr (Or.inr ⟨by decide, ⟨header7, by decide⟩, by decide⟩))⟩

/-- The handler adds nothing to a failure of the driver lookup: the error it
returns is or wraps `ethereum.NotFound` exactly when the driver's error is
or does. -/
theorem outputAtBlock_driver_error_notFound (ext : Ext) (n : nodeAPI σ) (ctx : Context)
    (number : Nat) (s : σ) (e : GoError)
    (hd : (n.driverReply ctx number (n.entered s)).1.2.2 = some e) :
    ∃ err, (n.OutputAtBlock ext ctx number s).1 = (none, some err) ∧
      err.isNotFound = e.isNotFound := by
  rw [outputAtBlock_result, body_driver_error ext n ctx number _ e hd]
  exact ⟨_, rfl, rfl⟩

end OutputAtBlock

/-! ## The other node RPC handlers and the admin RPC handlers -/

section Handlers

variable {σ : Type}

/-- C8: `Version` returns `version.Version`, then `-`, then `version.Meta`,
and a nil error, for every context and in every state. -/
theorem version_string (ext : Ext) (n : nodeAPI σ) (ctx : Context) (s : σ) :
    (n.Version ext ctx s).1 = (ext.Version ++ "-" ++ ext.Meta, none) := rfl

/-- The receiver is the same after any sequence of method calls. -/
theorem calls_receiver (ext : Ext) (n : nodeAPI σ) (cs : List NodeCall) (s : σ) :
    (n.calls ext cs s).1 = n := by
  induction cs generalizing n s with
  | nil => rfl
  | cons c cs ih =>
    have hc : (n.call ext c s).1 = n := by cases c <;> rfl
    rw [nodeAPI.calls, hc]
    exact ih n _

/-- C9: for the node API built by `NewNodeAPI` from `config`, after any
sequence of calls of its methods from any state, `RollupConfig` returns
exactly `config` and a nil error. -/
theorem rollupConfig_immutable (ext : Ext) (config : Option Config) (l2Client : l2EthClient σ)
    (dr : driverClient σ) (log : Logger σ) (m : rpcMetrics σ) (cs : List NodeCall)
    (ctx : Context) (s : σ) :
    (((NewNodeAPI config l2Client dr log m).calls ext cs s).1.RollupConfig ctx
      ((NewNodeAPI config l2Client dr log m).calls ext cs s).2).1 = (config, none) := by
  rw [calls_receiver]
  rfl

/-- C10: the admin handlers add only the metrics calls to the driver's control
operations.  `StartProposer` hands the block hash to the driver unchanged
and returns the driver's error, so it rejects exactly when the driver does;
`StopProposer` returns the driver's hash and error; and
`ResetDerivationPipeline` returns the driver's error.  In each case the
driver runs in the state the metrics call left and the deferred recorder
runs on the state the driver left. -/
theorem adminAPI_passes_through (a : adminAPI σ) (ctx : Context) (blockHash : Bytes32) (s : σ) :
    (a.StartProposer ctx blockHash s =
      ((a.dr.StartProposer ctx blockHash
          (a.m.RecordRPCServerRequest "admin_startProposer" s).2).1,
       (a.m.RecordRPCServerRequest "admin_startProposer" s).1
        (a.dr.StartProposer ctx blockHash
          (a.m.RecordRPCServerRequest "admin_startProposer" s).2).2)) ∧
    ((a.StartProposer ctx blockHash s).1.isSome =
      (a.dr.StartProposer ctx blockHash
        (a.m.RecordRPCServerRequest "admin_startProposer" s).2).1.isSome) ∧
    (a.StopProposer ctx s =
      ((a.dr.StopProposer ctx (a.m.RecordRPCServerRequest "admin_stopProposer" s).2).1,
       (a.m.RecordRPCServerRequest "admin_stopProposer" s).1
        (a.dr.StopProposer ctx (a.m.RecordRPCServerRequest "admin_stopProposer" s).2).2)) ∧
    (a.ResetDerivationPipeline ctx s =
      ((a.dr.ResetDerivationPipeline ctx
          (a.m.RecordRPCServerRequest "admin_resetDerivationPipeline" s).2).1,
       (a.m.RecordRPCServerRequest "admin_resetDerivationPipeline" s).1
        (a.dr.ResetDerivationPipeline ctx
          (a.m.RecordRPCServerRequest "admin_resetDerivationPipeline" s).2).2)) :=
  ⟨rfl, rfl, rfl, rfl⟩

/-- C10 on the proposer fixture: starting on the unsafe head succeeds,
starting on another hash or while running is rejected with the driver's
error, and stopping returns the driver's unsafe hash. -/
theorem adminAPI_passes_through_witness :
    (specAdmin.StartProposer ⟨0⟩ (bytes32Of 9) (world9 false)).1 = none ∧
    (specAdmin.StartProposer ⟨0⟩ (bytes32Of 8) (world9 false)).1 =
      some (GoError.other "block hash does not match") ∧
    (specAdmin.StartProposer ⟨0⟩ (bytes32Of 9) (world9 true)).1 =
      some (GoError.other "proposer already running") ∧
    (specAdmin.StopProposer ⟨0⟩ (world9 true)).1 = (bytes32Of 9, none) :=
  ⟨(congrArg Prod.fst
      (adminAPI_passes_through specAdmin ⟨0⟩ (bytes32Of 9) (world9 false)).1).trans (by decide),
   (congrArg Prod.fst
      (adminAPI_passes_through specAdmin ⟨0⟩ (bytes32Of 8) (world9 false)).1).trans (by decide),
   (congrArg Prod.fst
      (adminAPI_passes_through specAdmin ⟨0⟩ (bytes32Of 9) (world9 true)).1).trans (by decide),
   (congrArg Prod.fst
      (adminAPI_passes_through specAdmin ⟨0⟩ (bytes32Of 9) (world9 true)).2.2.1).trans
      (by decide)⟩

/-- `SyncStatus` returns exactly the status and the error of the driver. -/
theorem syncStatus_forwards (n : nodeAPI σ) (ctx : Context) (s : σ) :
    (n.SyncStatus ctx s).1 =
      (n.dr.SyncStatus ctx (n.m.RecordRPCServerRequest "kanvas_syncStatus" s).2).1 := rfl

end Handlers

/-! ## Gossip validation -/

section Gossip

variable {L τ : Type}

/-- One call of a guarded validator: the inner validator's outcome with a
panic turned into a returned `ValidationReject`, and the inner validator's
state. -/
theorem guard_call (log : Logger L) (fn : ValidatorEx τ) (ctx : Context) (id : String)
    (message : Option Message) (t : τ) :
    guardGossipValidator log fn ctx id message t =
      (recovered (fn ctx id message t).1, (fn ctx id message t).2) := by
  unfold guardGossipValidator
  rcases h : fn ctx id message t with ⟨_ | _, t1⟩ <;> rfl

/-- A sequence of calls of a guarded validator gives, call by call, the
outcomes of the inner validator with every panic turned into a returned
`ValidationReject`. -/
theorem guard_run (log : Logger L) (fn : ValidatorEx τ)
    (cs : List (Context × String × Option Message)) (t : τ) :
    runValidator (guardGossipValidator log fn) cs t = (runValidator fn cs t).map recovered := by
  induction cs generalizing t with
  | nil => rfl
  | cons c cs ih =>
    simp only [runValidator, List.map_cons, guard_call]
    rw [ih]

/-- C4: the validator returned by `guardGossipValidator` returns the inner
validator's result when that returns, returns `ValidationReject` instead of
panicking when that panics, keeps no state of its own, and so over any
sequence of calls gives the inner validator's outcomes with each panic turned
into a returned `ValidationReject`: a panic does not change later results. -/
theorem guardGossipValidator_recovers (log : Logger L) (fn : ValidatorEx τ) (ctx : Context)
    (id : String) (message : Option Message) (t : τ)
    (cs : List (Context × String × Option Message)) :
    (∀ r, (fn ctx id message t).1 = Outcome.returns r →
      (guardGossipValidator log fn ctx id message t).1 = Outcome.returns r) ∧
    (∀ v, (fn ctx id message t).1 = Outcome.panics v →
      (guardGossipValidator log fn ctx id message t).1 =
        Outcome.returns ValidationResult.ValidationReject) ∧
    (guardGossipValidator log fn ctx id message t).2 = (fn ctx id message t).2 ∧
    runValidator (guardGossipValidator log fn) cs t = (runValidator fn cs t).map recovered := by
  refine ⟨?_, ?_, ?_, guard_run log fn cs t⟩
  · intro r hr
    rw [guard_call, hr]
    rfl
  · intro v hv
    rw [guard_call, hv]
    rfl
  · rw [guard_call]

/-- C4 on `TestGuardGossipValidator`: alice is accepted, mallory rejected, bob
ignored, and again after mallory's panics. -/
theorem guardGossipValidator_recovers_witness :
    runValidator (guardGossipValidator traceLogger testValidator) testCalls () =
      [Outcome.returns ValidationResult.ValidationAccept,
       Outcome.returns ValidationResult.ValidationReject,
       Outcome.returns ValidationResult.ValidationIgnore,
       Outcome.returns ValidationResult.ValidationReject,
       Outcome.returns ValidationResult.ValidationAccept,
       Outcome.returns ValidationResult.ValidationIgnore] :=
  (guardGossipValidator_recovers traceLogger testValidator ⟨0⟩ "alice" none ()
    testCalls).2.2.2.trans (by decide)

/-- C5: with a proposer address configured, the first 65 octets of the
signature a local signer for key `k` produces over the block signing domain,
the chain id and the message are accepted when the configured address is the
address of `k`, and rejected when it is the address of a key with another
address; any signature from which no public key with the configured address
is recovered is rejected.  The signature scheme is a parameter: signatures
have 65 octets and recovery returns the signer's public key. -/
theorem verifyBlockSignature_signer (c : Crypto) (log : Logger L) (cfg : Config)
    (id : String) (ctx : Context) (k : PrivateKey) (msg : List Byte)
    (hlen : (c.Sign (SigningHash c SigningDomainBlocksV1 cfg.L2ChainID msg) k).length = 65)
    (hrec : c.SigToPub (SigningHash c SigningDomainBlocksV1 cfg.L2ChainID msg)
      (c.Sign (SigningHash c SigningDomainBlocksV1 cfg.L2ChainID msg) k) = some (c.pubkey k)) :
    (∀ runCfg : GossipRuntimeConfig, runCfg.P2PPropAddress ≠ Address.zero →
      runCfg.P2PPropAddress = c.PubkeyToAddress (c.pubkey k) →
      verifyBlockSignature c log cfg runCfg id
        ((LocalSigner.Sign c k ctx SigningDomainBlocksV1 cfg.L2ChainID msg).1.take 65) msg =
          ValidationResult.ValidationAccept) ∧
    (∀ (runCfg : GossipRuntimeConfig) (k' : PrivateKey),
      runCfg.P2PPropAddress ≠ Address.zero →
      runCfg.P2PPropAddress = c.PubkeyToAddress (c.pubkey k') →
      c.PubkeyToAddress (c.pubkey k') ≠ c.PubkeyToAddress (c.pubkey k) →
      verifyBlockSignature c log cfg runCfg id
        ((LocalSigner.Sign c k ctx SigningDomainBlocksV1 cfg.L2ChainID msg).1.take 65) msg =
          ValidationResult.ValidationReject) ∧
    (∀ (runCfg : GossipRuntimeConfig) (sig : List Byte),
      runCfg.P2PPropAddress ≠ Address.zero → sig.length = 65 →
      (∀ pub, c.SigToPub (SigningHash c SigningDomainBlocksV1 cfg.L2ChainID msg) sig = some pub →
        c.PubkeyToAddress pub ≠ runCfg.P2PPropAddress) →
      verifyBlockSignature c log cfg runCfg id sig msg = ValidationResult.ValidationReject) := by
  have htake : (LocalSigner.Sign c k ctx SigningDomainBlocksV1 cfg.L2ChainID msg).1.take 65 =
      c.Sign (SigningHash c SigningDomainBlocksV1 cfg.L2ChainID msg) k := by
    unfold LocalSigner.Sign
    exact List.take_of_length_le (le_of_eq hlen)
  refine ⟨?_, ?_, ?_⟩
  · intro runCfg hcfg haddr
    rw [htake]
    unfold verifyBlockSignature
    rw [if_neg hcfg, hrec]
    simp only [haddr, if_true]
  · intro runCfg k' hcfg haddr hne
    rw [htake]
    unfold verifyBlockSignature
    rw [if_neg hcfg, hrec]
    have : ¬ c.PubkeyToAddress (c.pubkey k) = runCfg.P2PPropAddress := by
      rw [haddr]
      exact fun h => hne h.symm
    simp only [this, if_false]
  · intro runCfg sig hcfg _ hno
    unfold verifyBlockSignature
    rw [if_neg hcfg]
    rcases hs : c.SigToPub (SigningHash c SigningDomainBlocksV1 cfg.L2ChainID msg) sig
      with _ | pub
    · rfl
    · simp only [hno pub hs, if_false]

/-- C5 on `TestVerifyBlockSignature`: the signature of the proposer key is
accepted for the proposer's address, rejected for the address of another
key, and 65 zero octets are rejected. -/
theorem verifyBlockSignature_signer_witness :
    verifyBlockSignature stubCrypto traceLogger testConfig
      { P2PPropAddress := stubCrypto.PubkeyToAddress (stubCrypto.pubkey testKey) } "foo"
      testSig testMsg = ValidationResult.ValidationAccept ∧
    verifyBlockSignature stubCrypto traceLogger testConfig
      { P2PPropAddress := stubCrypto.PubkeyToAddress (stubCrypto.pubkey (bytes32Of 0x12)) } "foo"
      testSig testMsg = ValidationResult.ValidationReject ∧
    verifyBlockSignature stubCrypto traceLogger testConfig
      { P2PPropAddress := stubCrypto.PubkeyToAddress (stubCrypto.pubkey testKey) } "foo"
      (List.replicate 65 0) testMsg = ValidationResult.ValidationReject :=
  ⟨(verifyBlockSignature_signer stubCrypto traceLogger testConfig "foo" ⟨0⟩ testKey testMsg
      (by decide) (by decide)).1 _ (by decide) rfl,
   (verifyBlockSignature_signer stubCrypto traceLogger testConfig "foo" ⟨0⟩ testKey testMsg
      (by decide) (by decide)).2.1 _ (bytes32Of 0x12) (by decide) rfl (by decide),
   (verifyBlockSignature_signer stubCrypto traceLogger testConfig "foo" ⟨0⟩ testKey testMsg
      (by decide) (by decide)).2.2 _ (List.replicate 65 0) (by decide) (by decide) (by decide)⟩

/-- C6: when no proposer P2P address is configured, `verifyBlockSignature`
returns `ValidationIgnore` for every message and every signature. -/
theorem verifyBlockSignature_no_proposer (c : Crypto) (log : Logger L) (cfg : Config)
    (runCfg : GossipRuntimeConfig) (id : String) (signatureBytes payloadBytes : List Byte)
    (hcfg : runCfg.P2PPropAddress = Address.zero) :
    verifyBlockSignature c log cfg runCfg id signatureBytes payloadBytes =
      ValidationResult.ValidationIgnore := by
  unfold verifyBlockSignature
  rw [if_pos hcfg]

/-- C6 on `TestVerifyBlockSignature`: a valid signature of the proposer key is
ignored when the runtime config is empty. -/
theorem verifyBlockSignature_no_proposer_witness :
    ({ P2PPropAddress := Address.zero } : GossipRuntimeConfig).P2PPropAddress = Address.zero ∧
    verifyBlockSignature stubCrypto traceLogger testConfig { P2PPropAddress := Address.zero }
      "foo" testSig testMsg = ValidationResult.ValidationIgnore :=
  ⟨rfl, verifyBlockSignature_no_proposer stubCrypto traceLogger testConfig
    { P2PPropAddress := Address.zero } "foo" testSig testMsg rfl⟩

end Gossip

/-! ## Command line flags -/

section Flags

open flags

set_option maxRecDepth 8000

/-- C11: `prefixEnvVar` puts `NODE_` in front of every name, and the
environment variable of every flag defined in flags.go is `NODE_` followed
by a non-empty name made of `A`-`Z`, `0`-`9` and `_` only. -/
theorem flags_env_upper_snake :
    (∀ name : String, prefixEnvVar name = "NODE_" ++ name) ∧
    (∀ f ∈ definedFlags, ∃ name : String,
      f.EnvVar = "NODE_" ++ name ∧ name ≠ "" ∧ ∀ ch ∈ name.data, isUpperSnakeChar ch = true) := by
  refine ⟨fun _ => rfl, ?_⟩
  have h : ∀ f ∈ definedFlags,
      f.EnvVar = "NODE_" ++ String.mk (f.EnvVar.data.drop 5) ∧
      String.mk (f.EnvVar.data.drop 5) ≠ "" ∧
      (f.EnvVar.data.drop 5).all isUpperSnakeChar = true := by decide
  intro f hf
  obtain ⟨h1, h2, h3⟩ := h f hf
  exact ⟨String.mk (f.EnvVar.data.drop 5), h1, h2, fun ch hch => List.all_eq_true.mp h3 ch hch⟩

/-- C11 on the flag `l1`: its environment variable is `NODE_L1_ETH_RPC`. -/
theorem flags_env_upper_snake_witness :
    L1NodeAddr ∈ definedFlags ∧
    ∃ name : String,
      L1NodeAddr.EnvVar = "NODE_" ++ name ∧ name ≠ "" ∧
        ∀ ch ∈ name.data, isUpperSnakeChar ch = true :=
  ⟨by decide, flags_env_upper_snake.2 L1NodeAddr (by decide)⟩

/-- The checks of `CheckRequired` in their order, with the flag names and
the error texts written out. -/
theorem checkRequired_eq (ctx : CLIContext) :
    CheckRequired ctx =
      if ctx.GlobalString "l1" = "" then some (GoError.other "flag l1 is required")
      else if ctx.GlobalString "l2" = "" then some (GoError.other "flag l2 is required")
      else if ctx.GlobalString "rollup.config" = "" ∧ ctx.GlobalString "network" = "" then
        some (GoError.other "flag rollup.config or network is required")
      else if ctx.GlobalString "rollup.config" ≠ "" ∧ ctx.GlobalString "network" ≠ "" then
        some (GoError.other "cannot specify both rollup.config and network")
      else if ctx.GlobalString "rpc.addr" = "" then
        some (GoError.other "flag rpc.addr is required")
      else if ¬ ctx.GlobalIsSet "rpc.port" = true then
        some (GoError.other "flag rpc.port is required")
      else none := rfl

/-- C12, as stated, fails: with `rpc.addr` empty and both `rollup.config` and
`network` given, a required flag is missing, but the error is
`cannot specify both rollup.config and network`, which names no missing
flag. -/
theorem checkRequired_names_missing_counterexample :
    (∃ name, missing bothChainsCtx name) ∧
    CheckRequired bothChainsCtx =
      some (GoError.other "cannot specify both rollup.config and network") ∧
    ¬ ∃ name, missing bothChainsCtx name ∧
      CheckRequired bothChainsCtx = some (GoError.other ("flag " ++ name ++ " is required")) := by
  refine ⟨⟨"rpc.addr", Or.inr (Or.inr (Or.inl ⟨rfl, by decide⟩))⟩, by decide, ?_⟩
  rintro ⟨name, hm, h⟩
  have hc : CheckRequired bothChainsCtx =
      some (GoError.other "cannot specify both rollup.config and network") := by decide
  rw [hc] at h
  rcases hm with ⟨rfl, _⟩ | ⟨rfl, _⟩ | ⟨rfl, _⟩ | ⟨rfl, _⟩ <;> exact absurd h (by decide)

/-- C12, amended: when `l1`, `l2` or `rpc.addr` is empty or `rpc.port` is not
set, `CheckRequired` returns an error.  The error is `flag <name> is required`
for such a flag when `l1` or `l2` is empty or exactly one of `rollup.config`
and `network` is given; otherwise the check of `rollup.config` and `network`,
which comes before those of `rpc.addr` and `rpc.port`, fails first and its
error is returned. -/
theorem checkRequired_enforces_required (ctx : CLIContext)
    (hmiss : ∃ name, missing ctx name) :
    CheckRequired ctx ≠ none ∧
    ((ctx.GlobalString "l1" = "" ∨ ctx.GlobalString "l2" = "" ∨
        (ctx.GlobalString "rollup.config" = "" ∧ ctx.GlobalString "network" ≠ "") ∨
        (ctx.GlobalString "rollup.config" ≠ "" ∧ ctx.GlobalString "network" = "")) →
      ∃ name, missing ctx name ∧
        CheckRequired ctx = some (GoError.other ("flag " ++ name ++ " is required"))) ∧
    (ctx.GlobalString "l1" ≠ "" → ctx.GlobalString "l2" ≠ "" →
      ctx.GlobalString "rollup.config" = "" → ctx.GlobalString "network" = "" →
      CheckRequired ctx = some (GoError.other "flag rollup.config or network is required")) ∧
    (ctx.GlobalString "l1" ≠ "" → ctx.GlobalString "l2" ≠ "" →
      ctx.GlobalString "rollup.config" ≠ "" → ctx.GlobalString "network" ≠ "" →
      CheckRequired ctx =
        some (GoError.other "cannot specify both rollup.config and network")) := by
  rw [checkRequired_eq]
  refine ⟨?_, ?_, ?_, ?_⟩
  · obtain ⟨name, hm⟩ := hmiss
    rcases hm with ⟨_, h⟩ | ⟨_, h⟩ | ⟨_, h⟩ | ⟨_, h⟩ <;> split_ifs <;> simp_all
  · intro hcase
    by_cases h1 : ctx.GlobalString "l1" = ""
    · exact ⟨"l1", Or.inl ⟨rfl, h1⟩, by rw [if_pos h1]; rfl⟩
    by_cases h2 : ctx.GlobalString "l2" = ""
    · exact ⟨"l2", Or.inr (Or.inl ⟨rfl, h2⟩), by rw [if_neg h1, if_pos h2]; rfl⟩
    have h3 : ¬ (ctx.GlobalString "rollup.config" = "" ∧ ctx.GlobalString "network" = "") := by
      rcases hcase with h | h | h | h
      · exact absurd h h1
      · exact absurd h h2
      · exact fun hh => h.2 hh.2
      · exact fun hh => h.1 hh.1
    have h4 : ¬ (ctx.GlobalString "rollup.config" ≠ "" ∧ ctx.GlobalString "network" ≠ "") := by
      rcases hcase with h | h | h | h
      · exact absurd h h1
      · exact absurd h h2
      · exact fun hh => hh.1 h.1
      · exact fun hh => hh.2 h.2
    rw [if_neg h1, if_neg h2, if_neg h3, if_neg h4]
    by_cases h5 : ctx.GlobalString "rpc.addr" = ""
    · exact ⟨"rpc.addr", Or.inr (Or.inr (Or.inl ⟨rfl, h5⟩)), by rw [if_pos h5]; rfl⟩
    have h6 : ctx.GlobalIsSet "rpc.port" = false := by
      obtain ⟨name, hm⟩ := hmiss
      rcases hm with ⟨_, h⟩ | ⟨_, h⟩ | ⟨_, h⟩ | ⟨_, h⟩
      · exact absurd h h1
      · exact absurd h h2
      · exact absurd h h5
      · exact h
    refine ⟨"rpc.port", Or.inr (Or.inr (Or.inr ⟨rfl, h6⟩)), ?_⟩
    rw [if_neg h5, if_pos (by simp [h6])]
    rfl
  · intro h1 h2 h3 h4
    rw [if_neg h1, if_neg h2, if_pos ⟨h3, h4⟩]
  · intro h1 h2 h3 h4
    rw [if_neg h1, if_neg h2, if_neg (fun hh => h3 hh.1), if_pos ⟨h3, h4⟩]

/-- C12, amended, on two command lines: without `rpc.addr` and `rpc.port` the
error names `rpc.addr`, and with both `rollup.config` and `network` the error
is that of the earlier check. -/
theorem checkRequired_enforces_required_witness :
    (∃ name, missing noRpcCtx name ∧
      CheckRequired noRpcCtx = some (GoError.other ("flag " ++ name ++ " is required"))) ∧
    CheckRequired bothChainsCtx =
      some (GoError.other "cannot specify both rollup.config and network") :=
  ⟨(checkRequired_enforces_required noRpcCtx
      ⟨"rpc.addr", Or.inr (Or.inr (Or.inl ⟨rfl, by decide⟩))⟩).2.1
      (Or.inr (Or.inr (Or.inl ⟨by decide, by decide⟩))),
   (checkRequired_enforces_required bothChainsCtx
      ⟨"rpc.addr", Or.inr (Or.inr (Or.inl ⟨rfl, by decide⟩))⟩).2.2.2
      (by decide) (by decide) (by decide) (by decide)⟩

/-- C18, as stated, fails: with `l1` empty and neither `rollup.config` nor
`network` given, the error is `flag l1 is required`, not the error of the
`rollup.config`/`network` check. -/
theorem checkRequired_chain_error_counterexample :
    noL1Ctx.GlobalString "rollup.config" = "" ∧ noL1Ctx.GlobalString "network" = "" ∧
    CheckRequired noL1Ctx = some (GoError.other "flag l1 is required") ∧
    CheckRequired noL1Ctx ≠
      some (GoError.other "flag rollup.config or network is required") := by
  decide

/-- C18, amended: `CheckRequired` returns nil exactly when `l1` and `l2` are
non-empty, exactly one of `rollup.config` and `network` is non-empty,
`rpc.addr` is non-empty and `rpc.port` is set; and when `l1` and `l2` are
non-empty, the error is `flag rollup.config or network is required` if both
`rollup.config` and `network` are empty and
`cannot specify both rollup.config and network` if both are non-empty. -/
theorem checkRequired_nil_iff (ctx : CLIContext) :
    (CheckRequired ctx = none ↔
      ctx.GlobalString "l1" ≠ "" ∧ ctx.GlobalString "l2" ≠ "" ∧
      ((ctx.GlobalString "rollup.config" ≠ "" ∧ ctx.GlobalString "network" = "") ∨
        (ctx.GlobalString "rollup.config" = "" ∧ ctx.GlobalString "network" ≠ "")) ∧
      ctx.GlobalString "rpc.addr" ≠ "" ∧ ctx.GlobalIsSet "rpc.port" = true) ∧
    (ctx.GlobalString "l1" ≠ "" → ctx.GlobalString "l2" ≠ "" →
      ctx.GlobalString "rollup.config" = "" → ctx.GlobalString "network" = "" →
      CheckRequired ctx = some (GoError.other "flag rollup.config or network is required")) ∧
    (ctx.GlobalString "l1" ≠ "" → ctx.GlobalString "l2" ≠ "" →
      ctx.GlobalString "rollup.config" ≠ "" → ctx.GlobalString "network" ≠ "" →
      CheckRequired ctx =
        some (GoError.other "cannot specify both rollup.config and network")) := by
  rw [checkRequired_eq]
  refine ⟨?_, ?_, ?_⟩
  · constructor
    · intro h
      split_ifs at h with h1 h2 h3 h4 h5 h6
      refine ⟨h1, h2, ?_, h5, by simpa using h6⟩
      by_cases hr : ctx.GlobalString "rollup.config" = ""
      · exact Or.inr ⟨hr, fun hn => h3 ⟨hr, hn⟩⟩
      · exact Or.inl ⟨hr, by_contra fun hn => h4 ⟨hr, hn⟩⟩
    · rintro ⟨h1, h2, h3, h5, h6⟩
      have h3a : ¬ (ctx.GlobalString "rollup.config" = "" ∧ ctx.GlobalString "network" = "") := by
        rcases h3 with h | h
        · exact fun hh => h.1 hh.1
        · exact fun hh => h.2 hh.2
      have h3b : ¬ (ctx.GlobalString "rollup.config" ≠ "" ∧ ctx.GlobalString "network" ≠ "") := by
        rcases h3 with h | h
        · exact fun hh => hh.2 h.2
        · exact fun hh => hh.1 h.1
      rw [if_neg h1, if_neg h2, if_neg h3a, if_neg h3b, if_neg h5, if_neg (by simp [h6])]
  · intro h1 h2 h3 h4
    rw [if_neg h1, if_neg h2, if_pos ⟨h3, h4⟩]
  · intro h1 h2 h3 h4
    rw [if_neg h1, if_neg h2, if_neg (fun hh => h3 hh.1), if_pos ⟨h3, h4⟩]

/-- C18, amended, on three command lines: the complete one passes, the one
without `rollup.config` and `network` and the one with both are refused with
the two errors of that check. -/
theorem checkRequired_nil_iff_witness :
    CheckRequired completeCtx = none ∧
    CheckRequired noChainCtx =
      some (GoError.other "flag rollup.config or network is required") ∧
    CheckRequired bothChainsCtx =
      some (GoError.other "cannot specify both rollup.config and network") :=
  ⟨(checkRequired_nil_iff completeCtx).1.mpr
      ⟨by decide, by decide, Or.inr ⟨by decide, by decide⟩, by decide, by decide⟩,
   (checkRequired_nil_iff noChainCtx).2.1 (by decide) (by decide) (by decide) (by decide),
   (checkRequired_nil_iff bothChainsCtx).2.2 (by decide) (by decide) (by decide) (by decide)⟩

/-- C19: after package initialisation `Flags` is the four required flags
`l1`, `l2`, `rpc.addr`, `rpc.port` in this order followed by the optional
flags, which are the declared ones followed by those of package `p2p` and of
the log package.  The 26 flags defined in flags.go each occur exactly once
in the declared `requiredFlags ++ optionalFlags`, so that in `Flags` each
occurs once more than in the two appended lists; and their names, and their
environment variable names, are pairwise distinct. -/
theorem flags_well_formed (p2pFlags : List Flag) (CLIFlags : String → List Flag) :
    Flags p2pFlags CLIFlags = requiredFlags ++ (init p2pFlags CLIFlags).1 ∧
    (init p2pFlags CLIFlags).1 = optionalFlags ++ p2pFlags ++ CLIFlags envVarPrefix ∧
    (Flags p2pFlags CLIFlags).take 4 =
      [L1NodeAddr, L2EngineAddr, RPCListenAddr, RPCListenPort] ∧
    requiredFlags.map (fun f => f.Name) = ["l1", "l2", "rpc.addr", "rpc.port"] ∧
    definedFlags.length = 26 ∧
    (∀ f ∈ definedFlags, (requiredFlags ++ optionalFlags).count f = 1) ∧
    (∀ f ∈ definedFlags, (Flags p2pFlags CLIFlags).count f =
      1 + (p2pFlags ++ CLIFlags envVarPrefix).count f) ∧
    (definedFlags.map fun f => f.Name).Nodup ∧
    (definedFlags.map fun f => f.EnvVar).Nodup := by
  have hcount : ∀ f ∈ definedFlags, (requiredFlags ++ optionalFlags).count f = 1 := by decide
  refine ⟨rfl, rfl, rfl, rfl, rfl, hcount, ?_, by decide, by decide⟩
  intro f hf
  have hflags : Flags p2pFlags CLIFlags =
      (requiredFlags ++ optionalFlags) ++ (p2pFlags ++ CLIFlags envVarPrefix) := by
    simp [Flags, init, List.append_assoc]
  rw [hflags, List.count_append, hcount f hf]

/-- C19 on the flag `rollup.config` when no flags are appended: it occurs
once in the declared lists and once in `Flags`. -/
theorem flags_well_formed_witness :
    RollupConfig ∈ definedFlags ∧
    (requiredFlags ++ optionalFlags).count RollupConfig = 1 ∧
    (Flags [] fun _ => []).count RollupConfig = 1 + ([] ++ (fun _ => []) envVarPrefix).count
      RollupConfig :=
  ⟨by decide,
   (flags_well_formed [] fun _ => []).2.2.2.2.2.1 RollupConfig (by decide),
   (flags_well_formed [] fun _ => []).2.2.2.2.2.2.1 RollupConfig (by decide)⟩

end Flags

/-! ## Metrics configuration -/

section Metrics

open metrics

/-- C20: `Check` returns an error exactly when metrics are enabled and the
port is below 0 or above 65535; the error is `invalid metrics port`.  With
metrics disabled every port passes, and port 0 passes when enabled. -/
theorem metrics_check_iff (m : CLIConfig) :
    (m.Check ≠ none ↔ m.Enabled = true ∧ (m.ListenPort < 0 ∨ m.ListenPort > 65535)) ∧
    (m.Check ≠ none → m.Check = some (GoError.other "invalid metrics port")) ∧
    (m.Enabled = false → m.Check = none) ∧
    (m.Enabled = true → m.ListenPort = 0 → m.Check = none) := by
  unfold CLIConfig.Check MaxUint16
  refine ⟨?_, ?_, ?_, ?_⟩
  · constructor
    · intro h
      by_cases h1 : m.Enabled = true
      · by_cases h2 : m.ListenPort < 0 ∨ m.ListenPort > 65535
        · exact ⟨h1, h2⟩
        · exact absurd (by rw [if_neg (not_not.mpr h1), if_neg h2]) h
      · exact absurd (by rw [if_pos h1]) h
    · rintro ⟨h1, h2⟩
      rw [if_neg (not_not.mpr h1), if_pos h2]
      simp
  · intro h
    by_cases h1 : m.Enabled = true
    · by_cases h2 : m.ListenPort < 0 ∨ m.ListenPort > 65535
      · rw [if_neg (not_not.mpr h1), if_pos h2]
      · exact absurd (by rw [if_neg (not_not.mpr h1), if_neg h2]) h
    · exact absurd (by rw [if_pos h1]) h
  · intro h
    rw [if_pos (by simp [h])]
  · intro h1 h2
    rw [if_neg (by simp [h1]), if_neg (by rw [h2]; decide)]

/-- C20 on four configurations: port 70000 and port -1 are refused when
metrics are enabled, port 70000 passes when they are disabled, and port 0
passes when enabled. -/
theorem metrics_check_iff_witness :
    ({ Enabled := true, ListenAddr := "0.0.0.0", ListenPort := 70000 } : CLIConfig).Check =
      some (GoError.other "invalid metrics port") ∧
    ({ Enabled := true, ListenAddr := "0.0.0.0", ListenPort := -1 } : CLIConfig).Check ≠ none ∧
    ({ Enabled := false, ListenAddr := "0.0.0.0", ListenPort := 70000 } : CLIConfig).Check =
      none ∧
    ({ Enabled := true, ListenAddr := "0.0.0.0", ListenPort := 0 } : CLIConfig).Check = none :=
  ⟨(metrics_check_iff _).2.1 ((metrics_check_iff _).1.mpr ⟨rfl, Or.inr (by decide)⟩),
   (metrics_check_iff _).1.mpr ⟨rfl, Or.inl (by decide)⟩,
   (metrics_check_iff _).2.2.1 rfl,
   (metrics_check_iff _).2.2.2 rfl rfl⟩

end Metrics

/-! ## Driver composition -/

section Driver

open driver

/-- C13: every driver made by `NewDriver` has the three L1 signal channels
and the unsafe L2 payload channel with capacity 10 and empty, whatever
configuration and collaborators are passed in. -/
theorem newDriver_channel_capacities (driverCfg : driver.Config) (cfg : Option Config)
    (l2 : L2Chain) (l1 : L1Chain) (syncClient : Option SyncClient) (network : Network)
    (log snapshotLog : LogHandle) (metrics : Metrics) (next : Nat) :
    (NewDriver driverCfg cfg l2 l1 syncClient network log snapshotLog metrics next).1.l1HeadSig
      = makeChan L1BlockRef 10 ∧
    (NewDriver driverCfg cfg l2 l1 syncClient network log snapshotLog metrics next).1.l1SafeSig
      = makeChan L1BlockRef 10 ∧
    (NewDriver driverCfg cfg l2 l1 syncClient network log snapshotLog metrics next).1.l1FinalizedSig
      = makeChan L1BlockRef 10 ∧
    (NewDriver driverCfg cfg l2 l1 syncClient network log snapshotLog metrics next).1.unsafeL2Payloads
      = makeChan (Option ExecutionPayload) 10 ∧
    (NewDriver driverCfg cfg l2 l1 syncClient network log snapshotLog metrics next).1.l1HeadSig.cap
      = 10 ∧
    (NewDriver driverCfg cfg l2 l1 syncClient network log snapshotLog metrics next).1.l1SafeSig.cap
      = 10 ∧
    (NewDriver driverCfg cfg l2 l1 syncClient network log snapshotLog metrics next).1.l1FinalizedSig.cap
      = 10 ∧
    (NewDriver driverCfg cfg l2 l1 syncClient network log snapshotLog metrics next).1.unsafeL2Payloads.cap
      = 10 :=
  ⟨rfl, rfl, rfl, rfl, rfl, rfl, rfl, rfl⟩

/-- The eight objects of a driver made by `NewDriver` are numbered from
`next` in the order of the constructor calls. -/
theorem newDriver_objectIds (driverCfg : driver.Config) (cfg : Option Config)
    (l2 : L2Chain) (l1 : L1Chain) (syncClient : Option SyncClient) (network : Network)
    (log snapshotLog : LogHandle) (metrics : Metrics) (next : Nat) :
    (NewDriver driverCfg cfg l2 l1 syncClient network log snapshotLog metrics next).1.objectIds =
      [some next, some (next + 4), some (next + 3), some (next + 7), some (next + 6),
       some (next + 5), some (next + 2), some (next + 1)] ∧
    (NewDriver driverCfg cfg l2 l1 syncClient network log snapshotLog metrics next).2 =
      next + 8 :=
  ⟨rfl, rfl⟩

/-- C15: in the driver made by `NewDriver`, the L1 source of the derivation
pipeline is a confirmation depth view of depth `SyncerConfDepth`, the L1
source of the proposer's origin selector is another view of depth
`ProposerConfDepth`, both views take their head from `L1Head` of the one
tracker object stored in `l1State` and wrap the L1 chain passed in, and the
proposer's engine is a metered engine whose inner engine is the very pipeline
object stored in `derivation`.  Every constructor call allocates a new
object: the eight objects are pairwise distinct and new, so equal objects are
one instance. -/
theorem newDriver_composition (driverCfg : driver.Config) (cfg : Option Config)
    (l2 : L2Chain) (l1 : L1Chain) (syncClient : Option SyncClient) (network : Network)
    (log snapshotLog : LogHandle) (metrics : Metrics) (next : Nat) :
    (∃ syncId propId, syncId ≠ propId ∧
      (NewDriver driverCfg cfg l2 l1 syncClient network log snapshotLog metrics next).1.derivation.l1Fetcher =
        L1Fetcher.confDepth syncId driverCfg.SyncerConfDepth
          (NewDriver driverCfg cfg l2 l1 syncClient network log snapshotLog metrics next).1.l1State.L1Head
          (L1Fetcher.chain l1) ∧
      (NewDriver driverCfg cfg l2 l1 syncClient network log snapshotLog metrics next).1.proposer.l1OriginSelector.l1 =
        L1Fetcher.confDepth propId driverCfg.ProposerConfDepth
          (NewDriver driverCfg cfg l2 l1 syncClient network log snapshotLog metrics next).1.l1State.L1Head
          (L1Fetcher.chain l1)) ∧
    (NewDriver driverCfg cfg l2 l1 syncClient network log snapshotLog metrics next).1.proposer.engine.inner =
      (NewDriver driverCfg cfg l2 l1 syncClient network log snapshotLog metrics next).1.derivation ∧
    (NewDriver driverCfg cfg l2 l1 syncClient network log snapshotLog metrics next).1.proposer.engine.inner.id =
      (NewDriver driverCfg cfg l2 l1 syncClient network log snapshotLog metrics next).1.derivation.id ∧
    (NewDriver driverCfg cfg l2 l1 syncClient network log snapshotLog metrics next).1.objectIds.Nodup ∧
    (∀ i ∈ (NewDriver driverCfg cfg l2 l1 syncClient network log snapshotLog metrics next).1.objectIds,
      ∃ k, i = some k ∧ next ≤ k ∧
        k < (NewDriver driverCfg cfg l2 l1 syncClient network log snapshotLog metrics next).2) ∧
    (NewDriver driverCfg cfg l2 l1 syncClient network log snapshotLog metrics next).1.l1State.log = log ∧
    (NewDriver driverCfg cfg l2 l1 syncClient network log snapshotLog metrics next).1.l1State.metrics = metrics ∧
    (NewDriver driverCfg cfg l2 l1 syncClient network log snapshotLog metrics next).1.derivation.engine = l2 := by
  refine ⟨⟨next + 3, next + 1, by omega, rfl, rfl⟩, rfl, rfl, ?_, ?_, rfl, rfl, rfl⟩
  · rw [(newDriver_objectIds driverCfg cfg l2 l1 syncClient network log snapshotLog metrics
      next).1]
    simp
  · rw [(newDriver_objectIds driverCfg cfg l2 l1 syncClient network log snapshotLog metrics
      next).1,
      (newDriver_objectIds driverCfg cfg l2 l1 syncClient network log snapshotLog metrics
      next).2]
    intro i hi
    simp only [List.mem_cons, List.mem_singleton, List.not_mem_nil, or_false] at hi
    rcases hi with h | h | h | h | h | h | h | h <;> exact ⟨_, h, by omega, by omega⟩

/-- C15 on a driver whose objects are numbered from 100. -/
theorem newDriver_composition_witness :
    (testDriver 100).1.proposer.engine.inner = (testDriver 100).1.derivation ∧
    (testDriver 100).1.objectIds.Nodup ∧
    (∃ syncId propId, syncId ≠ propId ∧
      (testDriver 100).1.derivation.l1Fetcher =
        L1Fetcher.confDepth syncId 0 (testDriver 100).1.l1State.L1Head (L1Fetcher.chain ⟨1⟩) ∧
      (testDriver 100).1.proposer.l1OriginSelector.l1 =
        L1Fetcher.confDepth propId 4 (testDriver 100).1.l1State.L1Head
          (L1Fetcher.chain ⟨1⟩)) :=
  ⟨(newDriver_composition { SyncerConfDepth := 0, ProposerConfDepth := 4 } none ⟨2⟩ ⟨1⟩ none
      ⟨3⟩ ⟨4⟩ ⟨5⟩ ⟨6⟩ 100).2.1,
   (newDriver_composition { SyncerConfDepth := 0, ProposerConfDepth := 4 } none ⟨2⟩ ⟨1⟩ none
      ⟨3⟩ ⟨4⟩ ⟨5⟩ ⟨6⟩ 100).2.2.2.1,
   (newDriver_composition { SyncerConfDepth := 0, ProposerConfDepth := 4 } none ⟨2⟩ ⟨1⟩ none
      ⟨3⟩ ⟨4⟩ ⟨5⟩ ⟨6⟩ 100).1⟩

/-- The composition property tells instances apart: a driver whose views use
a second tracker and whose proposer builds on a second pipeline has neither
the tracker nor the pipeline in common. -/
theorem newDriverSplit_differs (driverCfg : driver.Config) (cfg : Option Config)
    (l2 : L2Chain) (l1 : L1Chain) (syncClient : Option SyncClient) (network : Network)
    (log snapshotLog : LogHandle) (metrics : Metrics) (next : Nat) :
    (NewDriverSplit driverCfg cfg l2 l1 syncClient network log snapshotLog metrics
        next).1.proposer.engine.inner ≠
      (NewDriverSplit driverCfg cfg l2 l1 syncClient network log snapshotLog metrics
        next).1.derivation ∧
    ∀ syncId, (NewDriverSplit driverCfg cfg l2 l1 syncClient network log snapshotLog metrics
        next).1.derivation.l1Fetcher ≠
      L1Fetcher.confDepth syncId driverCfg.SyncerConfDepth
        (NewDriverSplit driverCfg cfg l2 l1 syncClient network log snapshotLog metrics
          next).1.l1State.L1Head (L1Fetcher.chain l1) := by
  constructor
  · intro h
    have hid := congrArg DerivationPipeline.id h
    simp [NewDriverSplit, NewDriver, NewL1State, NewConfDepth, NewL1OriginSelector,
      derive.NewDerivationPipeline, derive.NewFetchingAttributesBuilder, NewMeteredEngine,
      NewProposer] at hid
  · intro syncId h
    simp [NewDriverSplit, NewDriver, NewL1State, NewConfDepth, NewL1OriginSelector,
      derive.NewDerivationPipeline, derive.NewFetchingAttributesBuilder, NewMeteredEngine,
      NewProposer, L1State.L1Head] at h

end Driver

/-! ## The steps of `kanvas_outputAtBlock` -/

section OutputAtBlockSteps

variable {σ : Type}

set_option maxRecDepth 8000

/-- The handler is its body between the metrics call and the deferred
recorder. -/
theorem outputAtBlock_eq (ext : Ext) (n : nodeAPI σ) (ctx : Context) (number : Nat) (s : σ) :
    n.OutputAtBlock ext ctx number s =
      ((n.outputAtBlockBody ext ctx number (n.entered s)).1,
       (n.m.RecordRPCServerRequest "kanvas_outputAtBlock" s).1
        (n.outputAtBlockBody ext ctx number (n.entered s)).2) := rfl

/-- A run without error passed every step: the driver lookup, the header
lookup with a header, the proof lookup with a proof, and the verification. -/
theorem outputAtBlock_success_inv (ext : Ext) (n : nodeAPI σ) (ctx : Context) (number : Nat)
    (s : σ) (hok : (n.OutputAtBlock ext ctx number s).1.2 = none) :
    ∃ head proof,
      (n.driverReply ctx number (n.entered s)).1.2.2 = none ∧
      (n.headerReply ctx number (n.entered s)).1 = (some head, none) ∧
      (n.proofReply ext ctx number (n.entered s)).1 = (some proof, none) ∧
      ext.Verify proof head.Root = none := by
  rw [outputAtBlock_eq] at hok
  rcases hd : (n.driverReply ctx number (n.entered s)).1.2.2 with _ | e
  swap
  · rw [body_driver_error ext n ctx number _ e hd] at hok
    simp at hok
  rcases hh : (n.headerReply ctx number (n.entered s)).1 with ⟨_ | head, _ | e⟩
  · rw [body_header_nil ext n ctx number _ hd hh] at hok
    simp at hok
  · rw [body_header_error ext n ctx number _ e hd (by rw [hh])] at hok
    simp at hok
  swap
  · rw [body_header_error ext n ctx number _ e hd (by rw [hh])] at hok
    simp at hok
  rcases hp : (n.proofReply ext ctx number (n.entered s)).1 with ⟨_ | proof, _ | e⟩
  · rw [body_proof_nil ext n ctx number _ head hd hh hp] at hok
    simp at hok
  · rw [body_proof_error ext n ctx number _ head e hd hh (by rw [hp])] at hok
    simp at hok
  swap
  · rw [body_proof_error ext n ctx number _ head e hd hh (by rw [hp])] at hok
    simp at hok
  rcases hv : ext.Verify proof head.Root with _ | e
  swap
  · rw [body_verify_error ext n ctx number _ head proof e hd hh hp hv] at hok
    simp at hok
  exact ⟨head, proof, rfl, rfl, rfl, hv⟩

/-- C16: in a successful run all parts of the response refer to one block.
`BlockRef` and `Status` are the ref and the status of the one driver call
`BlockRefWithStatus(number)`; the header is looked up by the hash of that
ref; the proof is requested for the message passer predeploy, with no
storage keys, at the block tag that is the text of the same hash; the world
state after the run is the one these three calls and the two metrics calls
leave; and when the header returned has the hash it was asked by, the block
hash that enters the output root is `BlockRef.Hash`. -/
theorem outputAtBlock_one_block (ext : Ext) (n : nodeAPI σ) (ctx : Context) (number : Nat)
    (s : σ) (hok : (n.OutputAtBlock ext ctx number s).1.2 = none) :
    ∃ head proof resp,
      (n.OutputAtBlock ext ctx number s).1 = (some resp, none) ∧
      n.driverReply ctx number (n.entered s) =
        n.dr.BlockRefWithStatus ctx (toUint64 number) (n.entered s) ∧
      resp.BlockRef = (n.driverReply ctx number (n.entered s)).1.1 ∧
      resp.Status = (n.driverReply ctx number (n.entered s)).1.2.1 ∧
      n.headerReply ctx number (n.entered s) =
        n.client.InfoByHash ctx resp.BlockRef.Hash (n.driverReply ctx number (n.entered s)).2 ∧
      (n.headerReply ctx number (n.entered s)).1 = (some head, none) ∧
      n.proofReply ext ctx number (n.entered s) =
        n.client.GetProof ctx ext.L2ToL1MessagePasserAddr [] (ext.hashString resp.BlockRef.Hash)
          (n.headerReply ctx number (n.entered s)).2 ∧
      (n.proofReply ext ctx number (n.entered s)).1 = (some proof, none) ∧
      (n.OutputAtBlock ext ctx number s).2 =
        (n.m.RecordRPCServerRequest "kanvas_outputAtBlock" s).1
          (n.proofReply ext ctx number (n.entered s)).2 ∧
      resp.OutputRoot = (ComputeL2OutputRoot ext (some
        { Version := Bytes32.zero, StateRoot := head.Root,
          MessagePasserStorageRoot := proof.StorageHash, LatestBlockhash := head.Hash })).1 ∧
      (head.Hash = resp.BlockRef.Hash →
        resp.OutputRoot = (ComputeL2OutputRoot ext (some
          { Version := resp.Version, StateRoot := resp.StateRoot,
            MessagePasserStorageRoot := resp.WithdrawalStorageRoot,
            LatestBlockhash := resp.BlockRef.Hash })).1) := by
  obtain ⟨head, proof, hd, hh, hp, hv⟩ := outputAtBlock_success_inv ext n ctx number s hok
  rw [outputAtBlock_eq, body_success ext n ctx number _ head proof hd hh hp hv]
  refine ⟨head, proof, _, rfl, rfl, rfl, rfl, rfl, hh, rfl, hp, rfl, rfl, ?_⟩
  intro hhash
  simp only [ComputeL2OutputRoot, hhash]

/-- C16 on the fixtures: block 7 of `goodNode`. -/
theorem outputAtBlock_one_block_witness :
    (goodNode.OutputAtBlock stubExt ⟨0⟩ 7 []).1.2 = none ∧
    ∃ head proof resp,
      (goodNode.OutputAtBlock stubExt ⟨0⟩ 7 []).1 = (some resp, none) ∧
      goodNode.driverReply ⟨0⟩ 7 (goodNode.entered []) =
        goodNode.dr.BlockRefWithStatus ⟨0⟩ (toUint64 7) (goodNode.entered []) ∧
      resp.BlockRef = (goodNode.driverReply ⟨0⟩ 7 (goodNode.entered [])).1.1 ∧
      resp.Status = (goodNode.driverReply ⟨0⟩ 7 (goodNode.entered [])).1.2.1 ∧
      goodNode.headerReply ⟨0⟩ 7 (goodNode.entered []) =
        goodNode.client.InfoByHash ⟨0⟩ resp.BlockRef.Hash
          (goodNode.driverReply ⟨0⟩ 7 (goodNode.entered [])).2 ∧
      (goodNode.headerReply ⟨0⟩ 7 (goodNode.entered [])).1 = (some head, none) ∧
      goodNode.proofReply stubExt ⟨0⟩ 7 (goodNode.entered []) =
        goodNode.client.GetProof ⟨0⟩ stubExt.L2ToL1MessagePasserAddr []
          (stubExt.hashString resp.BlockRef.Hash)
          (goodNode.headerReply ⟨0⟩ 7 (goodNode.entered [])).2 ∧
      (goodNode.proofReply stubExt ⟨0⟩ 7 (goodNode.entered [])).1 = (some proof, none) ∧
      (goodNode.OutputAtBlock stubExt ⟨0⟩ 7 []).2 =
        (goodNode.m.RecordRPCServerRequest "kanvas_outputAtBlock" []).1
          (goodNode.proofReply stubExt ⟨0⟩ 7 (goodNode.entered [])).2 ∧
      resp.OutputRoot = (ComputeL2OutputRoot stubExt (some
        { Version := Bytes32.zero, StateRoot := head.Root,
          MessagePasserStorageRoot := proof.StorageHash, LatestBlockhash := head.Hash })).1 ∧
      (head.Hash = resp.BlockRef.Hash →
        resp.OutputRoot = (ComputeL2OutputRoot stubExt (some
          { Version := resp.Version, StateRoot := resp.StateRoot,
            MessagePasserStorageRoot := resp.WithdrawalStorageRoot,
            LatestBlockhash := resp.BlockRef.Hash })).1) :=
  ⟨by decide, outputAtBlock_one_block stubExt goodNode ⟨0⟩ 7 [] (by decide)⟩

/-- C17: `OutputAtBlock` returns either a response with a nil error or no
response with an error, and it stops at the first step that fails, in the
order driver lookup, header lookup, nil header, proof lookup, nil proof,
verification; when all pass, the output root is computed and the response
returned.  Each result comes with the world state that the calls made up to
that step leave.  When the driver lookup fails, the result is the same for
every L2 client, and when the header lookup fails or gives nil, it is the
same for every `GetProof`: these are not called. -/
theorem outputAtBlock_first_failure (ext : Ext) (n : nodeAPI σ) (ctx : Context) (number : Nat)
    (s : σ) :
    ((∃ resp, (n.OutputAtBlock ext ctx number s).1 = (some resp, none)) ∨
      (∃ err, (n.OutputAtBlock ext ctx number s).1 = (none, some err))) ∧
    (∀ e, (n.driverReply ctx number (n.entered s)).1.2.2 = some e →
      n.OutputAtBlock ext ctx number s =
        ((none, some (GoError.wrap "failed to get L2 block ref with sync status: " e)),
         (n.m.RecordRPCServerRequest "kanvas_outputAtBlock" s).1
          (n.driverReply ctx number (n.entered s)).2) ∧
      ∀ client' : l2EthClient σ,
        (NewNodeAPI n.config client' n.dr n.log n.m).OutputAtBlock ext ctx number s =
          n.OutputAtBlock ext ctx number s) ∧
    ((n.driverReply ctx number (n.entered s)).1.2.2 = none →
      ∀ e, (n.headerReply ctx number (n.entered s)).1.2 = some e →
      n.OutputAtBlock ext ctx number s =
        ((none, some (GoError.wrap ("failed to get L2 block by hash " ++
            ext.refString (n.driverReply ctx number (n.entered s)).1.1 ++ ": ") e)),
         (n.m.RecordRPCServerRequest "kanvas_outputAtBlock" s).1
          (n.headerReply ctx number (n.entered s)).2)) ∧
    ((n.driverReply ctx number (n.entered s)).1.2.2 = none →
      (n.headerReply ctx number (n.entered s)).1 = (none, none) →
      n.OutputAtBlock ext ctx number s =
        ((none, some GoError.notFound),
         (n.m.RecordRPCServerRequest "kanvas_outputAtBlock" s).1
          (n.headerReply ctx number (n.entered s)).2)) ∧
    ((n.driverReply ctx number (n.entered s)).1.2.2 = none →
      ((n.headerReply ctx number (n.entered s)).1.2 ≠ none ∨
        (n.headerReply ctx number (n.entered s)).1.1 = none) →
      ∀ getProof',
        (NewNodeAPI n.config { InfoByHash := n.client.InfoByHash, GetProof := getProof' }
          n.dr n.log n.m).OutputAtBlock ext ctx number s = n.OutputAtBlock ext ctx number s) ∧
    (∀ head, (n.driverReply ctx number (n.entered s)).1.2.2 = none →
      (n.headerReply ctx number (n.entered s)).1 = (some head, none) →
      ∀ e, (n.proofReply ext ctx number (n.entered s)).1.2 = some e →
      n.OutputAtBlock ext ctx number s =
        ((none, some (GoError.wrap ("failed to get contract proof at block " ++
            ext.refString (n.driverReply ctx number (n.entered s)).1.1 ++ ": ") e)),
         (n.m.RecordRPCServerRequest "kanvas_outputAtBlock" s).1
          (n.proofReply ext ctx number (n.entered s)).2)) ∧
    (∀ head, (n.driverReply ctx number (n.entered s)).1.2.2 = none →
      (n.headerReply ctx number (n.entered s)).1 = (some head, none) →
      (n.proofReply ext ctx number (n.entered s)).1 = (none, none) →
      n.OutputAtBlock ext ctx number s =
        ((none, some (GoError.wrap "proof " GoError.notFound)),
         (n.m.RecordRPCServerRequest "kanvas_outputAtBlock" s).1
          (n.proofReply ext ctx number (n.entered s)).2)) ∧
    (∀ head proof e, (n.driverReply ctx number (n.entered s)).1.2.2 = none →
      (n.headerReply ctx number (n.entered s)).1 = (some head, none) →
      (n.proofReply ext ctx number (n.entered s)).1 = (some proof, none) →
      ext.Verify proof head.Root = some e →
      n.OutputAtBlock ext ctx number s =
        ((none, some (GoError.wrap ("invalid withdrawal root hash, state root was " ++
            ext.hashString head.Root ++ ": ") e)),
         (n.m.RecordRPCServerRequest "kanvas_outputAtBlock" s).1
          (n.log.Error "invalid withdrawal root detected in block"
            [("stateRoot", LogValue.hash head.Root), ("blocknum", LogValue.num number),
             ("msg", LogValue.err e)] (n.proofReply ext ctx number (n.entered s)).2))) ∧
    (∀ head proof, (n.driverReply ctx number (n.entered s)).1.2.2 = none →
      (n.headerReply ctx number (n.entered s)).1 = (some head, none) →
      (n.proofReply ext ctx number (n.entered s)).1 = (some proof, none) →
      ext.Verify proof head.Root = none →
      ∃ resp, n.OutputAtBlock ext ctx number s =
        ((some resp, none),
         (n.m.RecordRPCServerRequest "kanvas_outputAtBlock" s).1
          (n.proofReply ext ctx number (n.entered s)).2)) := by
  refine ⟨?_, ?_, ?_, ?_, ?_, ?_, ?_, ?_, ?_⟩
  · rw [outputAtBlock_eq]
    rcases hd : (n.driverReply ctx number (n.entered s)).1.2.2 with _ | e
    swap
    · rw [body_driver_error ext n ctx number _ e hd]
      exact Or.inr ⟨_, rfl⟩
    rcases hh : (n.headerReply ctx number (n.entered s)).1 with ⟨_ | head, _ | e⟩
    · rw [body_header_nil ext n ctx number _ hd hh]
      exact Or.inr ⟨_, rfl⟩
    · rw [body_header_error ext n ctx number _ e hd (by rw [hh])]
      exact Or.inr ⟨_, rfl⟩
    swap
    · rw [body_header_error ext n ctx number _ e hd (by rw [hh])]
      exact Or.inr ⟨_, rfl⟩
    rcases hp : (n.proofReply ext ctx number (n.entered s)).1 with ⟨_ | proof, _ | e⟩
    · rw [body_proof_nil ext n ctx number _ head hd hh hp]
      exact Or.inr ⟨_, rfl⟩
    · rw [body_proof_error ext n ctx number _ head e hd hh (by rw [hp])]
      exact Or.inr ⟨_, rfl⟩
    swap
    · rw [body_proof_error ext n ctx number _ head e hd hh (by rw [hp])]
      exact Or.inr ⟨_, rfl⟩
    rcases hv : ext.Verify proof head.Root with _ | e
    swap
    · rw [body_verify_error ext n ctx number _ head proof e hd hh hp hv]
      exact Or.inr ⟨_, rfl⟩
    rw [body_success ext n ctx number _ head proof hd hh hp hv]
    exact Or.inl ⟨_, rfl⟩
  · intro e hd
    refine ⟨by rw [outputAtBlock_eq, body_driver_error ext n ctx number _ e hd], ?_⟩
    intro client'
    rw [outputAtBlock_eq, outputAtBlock_eq, body_driver_error ext n ctx number _ e hd,
      body_driver_error ext (NewNodeAPI n.config client' n.dr n.log n.m) ctx number
        ((NewNodeAPI n.config client' n.dr n.log n.m).entered s) e hd]
    rfl
  · intro hd e hh
    rw [outputAtBlock_eq, body_header_error ext n ctx number _ e hd hh]
  · intro hd hh
    rw [outputAtBlock_eq, body_header_nil ext n ctx number _ hd hh]
  · intro hd hcase getProof'
    rw [outputAtBlock_eq, outputAtBlock_eq]
    rcases hh : (n.headerReply ctx number (n.entered s)).1 with ⟨_ | head, _ | e⟩
    · rw [body_header_nil ext n ctx number _ hd hh,
        body_header_nil ext (NewNodeAPI n.config
          { InfoByHash := n.client.InfoByHash, GetProof := getProof' } n.dr n.log n.m)
          ctx number ((NewNodeAPI n.config
            { InfoByHash := n.client.InfoByHash, GetProof := getProof' } n.dr n.log n.m).entered s)
          hd hh]
      rfl
    · rw [body_header_error ext n ctx number _ e hd (by rw [hh]),
        body_header_error ext (NewNodeAPI n.config
          { InfoByHash := n.client.InfoByHash, GetProof := getProof' } n.dr n.log n.m)
          ctx number ((NewNodeAPI n.config
            { InfoByHash := n.client.InfoByHash, GetProof := getProof' } n.dr n.log n.m).entered s)
          e hd (congrArg Prod.snd hh)]
      rfl
    · rw [hh] at hcase
      rcases hcase with h | h
      · exact absurd rfl h
      · exact absurd h (by simp)
    · rw [body_header_error ext n ctx number _ e hd (by rw [hh]),
        body_header_error ext (NewNodeAPI n.config
          { InfoByHash := n.client.InfoByHash, GetProof := getProof' } n.dr n.log n.m)
          ctx number ((NewNodeAPI n.config
            { InfoByHash := n.client.InfoByHash, GetProof := getProof' } n.dr n.log n.m).entered s)
          e hd (congrArg Prod.snd hh)]
      rfl
  · intro head hd hh e hp
    rw [outputAtBlock_eq, body_proof_error ext n ctx number _ head e hd hh hp]
  · intro head hd hh hp
    rw [outputAtBlock_eq, body_proof_nil ext n ctx number _ head hd hh hp]
  · intro head proof e hd hh hp hv
    rw [outputAtBlock_eq, body_verify_error ext n ctx number _ head proof e hd hh hp hv]
  · intro head proof hd hh hp hv
    rw [outputAtBlock_eq, body_success ext n ctx number _ head proof hd hh hp hv]
    exact ⟨_, rfl⟩

/-- C17 on the fixtures: for block 17, above the driver's tip, only the
driver is called; with a client that has no header, the header is looked up
and no proof is requested. -/
theorem outputAtBlock_first_failure_witness :
    (goodNode.OutputAtBlock stubExt ⟨0⟩ 17 []).2 =
      ["begin kanvas_outputAtBlock", "dr.BlockRefWithStatus", "end kanvas_outputAtBlock"] ∧
    nilHeaderNode.OutputAtBlock stubExt ⟨0⟩ 7 [] =
      ((none, some GoError.notFound),
       ["begin kanvas_outputAtBlock", "dr.BlockRefWithStatus", "client.InfoByHash",
        "end kanvas_outputAtBlock"]) :=
  ⟨(congrArg Prod.snd
      ((outputAtBlock_first_failure stubExt goodNode ⟨0⟩ 17 []).2.1 GoError.notFound
        (by decide)).1).trans (by decide),
   ((outputAtBlock_first_failure stubExt nilHeaderNode ⟨0⟩ 7 []).2.2.2.1
      (by decide) (by decide)).trans (by decide)⟩

end OutputAtBlockSteps

/-! ## The rollup client and the node API -/

section RollupClient

open sources

variable {σ : Type}

set_option maxRecDepth 8000

/-- C14: the rollup client calls the transport with exactly the methods
`kanvas_outputAtBlock`, `kanvas_syncStatus`, `kanvas_rollupConfig` and
`kanvas_version`, and each handler of the node API reports the request it
serves to the metrics under the same method name and returns what api.go
says.  The argument `hexutil.Uint64(n)` that the client sends for a uint64
block number `n` is converted back to `n` by `OutputAtBlock`, which asks the
driver for block `n`: a failure of the driver's lookup of `n` is what the
handler returns, a response carries the ref and the status of the driver's
lookup of `n`, and the handler gives the same for every driver that answers
the lookup of `n` in the same way. -/
theorem rollupClient_agrees (ext : Ext) (r : RollupClient σ) (n : nodeAPI σ) (ctx : Context)
    (blockNum : Nat) (s : σ) (hu : blockNum < 2 ^ 64) :
    (r.OutputAtBlock ctx blockNum s =
        (((r.rpc.CallContext ctx (RPCResult.output none) "kanvas_outputAtBlock"
            [RPCArg.uint64 (hexutil.Uint64 blockNum)] s).1.1.asOutput,
          (r.rpc.CallContext ctx (RPCResult.output none) "kanvas_outputAtBlock"
            [RPCArg.uint64 (hexutil.Uint64 blockNum)] s).1.2),
         (r.rpc.CallContext ctx (RPCResult.output none) "kanvas_outputAtBlock"
            [RPCArg.uint64 (hexutil.Uint64 blockNum)] s).2) ∧
      r.SyncStatus ctx s =
        (((r.rpc.CallContext ctx (RPCResult.status none) "kanvas_syncStatus" [] s).1.1.asStatus,
          (r.rpc.CallContext ctx (RPCResult.status none) "kanvas_syncStatus" [] s).1.2),
         (r.rpc.CallContext ctx (RPCResult.status none) "kanvas_syncStatus" [] s).2) ∧
      r.RollupConfig ctx s =
        (((r.rpc.CallContext ctx (RPCResult.config none) "kanvas_rollupConfig" [] s).1.1.asConfig,
          (r.rpc.CallContext ctx (RPCResult.config none) "kanvas_rollupConfig" [] s).1.2),
         (r.rpc.CallContext ctx (RPCResult.config none) "kanvas_rollupConfig" [] s).2) ∧
      r.Version ctx s =
        (((r.rpc.CallContext ctx (RPCResult.string "") "kanvas_version" [] s).1.1.asString,
          (r.rpc.CallContext ctx (RPCResult.string "") "kanvas_version" [] s).1.2),
         (r.rpc.CallContext ctx (RPCResult.string "") "kanvas_version" [] s).2)) ∧
    (n.SyncStatus ctx s =
        ((n.dr.SyncStatus ctx (n.m.RecordRPCServerRequest "kanvas_syncStatus" s).2).1,
         (n.m.RecordRPCServerRequest "kanvas_syncStatus" s).1
          (n.dr.SyncStatus ctx (n.m.RecordRPCServerRequest "kanvas_syncStatus" s).2).2) ∧
      n.RollupConfig ctx s =
        ((n.config, none),
         (n.m.RecordRPCServerRequest "kanvas_rollupConfig" s).1
          (n.m.RecordRPCServerRequest "kanvas_rollupConfig" s).2) ∧
      n.Version ext ctx s =
        ((ext.Version ++ "-" ++ ext.Meta, none),
         (n.m.RecordRPCServerRequest "kanvas_version" s).1
          (n.m.RecordRPCServerRequest "kanvas_version" s).2)) ∧
    toUint64 (hexutil.Uint64 blockNum) = blockNum ∧
    (∀ e,
      (n.dr.BlockRefWithStatus ctx blockNum
        (n.m.RecordRPCServerRequest "kanvas_outputAtBlock" s).2).1.2.2 = some e →
      n.OutputAtBlock ext ctx (hexutil.Uint64 blockNum) s =
        ((none, some (GoError.wrap "failed to get L2 block ref with sync status: " e)),
         (n.m.RecordRPCServerRequest "kanvas_outputAtBlock" s).1
          (n.dr.BlockRefWithStatus ctx blockNum
            (n.m.RecordRPCServerRequest "kanvas_outputAtBlock" s).2).2)) ∧
    ((n.OutputAtBlock ext ctx (hexutil.Uint64 blockNum) s).1.2 = none →
      ∃ resp, (n.OutputAtBlock ext ctx (hexutil.Uint64 blockNum) s).1 = (some resp, none) ∧
        resp.BlockRef = (n.dr.BlockRefWithStatus ctx blockNum
          (n.m.RecordRPCServerRequest "kanvas_outputAtBlock" s).2).1.1 ∧
        resp.Status = (n.dr.BlockRefWithStatus ctx blockNum
          (n.m.RecordRPCServerRequest "kanvas_outputAtBlock" s).2).1.2.1) ∧
    (∀ dr' : driverClient σ,
      (∀ c t, dr'.BlockRefWithStatus c blockNum t = n.dr.BlockRefWithStatus c blockNum t) →
      (NewNodeAPI n.config n.client dr' n.log n.m).OutputAtBlock ext ctx
          (hexutil.Uint64 blockNum) s =
        n.OutputAtBlock ext ctx (hexutil.Uint64 blockNum) s) := by
  have hconv : toUint64 (hexutil.Uint64 blockNum) = blockNum := by
    unfold toUint64 hexutil.Uint64
    rw [Nat.mod_mod, Nat.mod_eq_of_lt hu]
  have hreply : ∀ t, n.driverReply ctx (hexutil.Uint64 blockNum) t =
      n.dr.BlockRefWithStatus ctx blockNum t := by
    intro t
    unfold nodeAPI.driverReply
    rw [hconv]
  refine ⟨⟨rfl, rfl, rfl, rfl⟩, ⟨rfl, rfl, rfl⟩, hconv, ?_, ?_, ?_⟩
  · intro e hd
    have hd1 : (n.driverReply ctx (hexutil.Uint64 blockNum) (n.entered s)).1.2.2 = some e := by
      rw [hreply]
      exact hd
    rw [outputAtBlock_eq, body_driver_error ext n ctx _ _ e hd1, hreply]
    rfl
  · intro hok
    obtain ⟨head, proof, hd, hh, hp, hv⟩ :=
      outputAtBlock_success_inv ext n ctx (hexutil.Uint64 blockNum) s hok
    rw [outputAtBlock_eq, body_success ext n ctx _ _ head proof hd hh hp hv, hreply]
    exact ⟨_, rfl, rfl, rfl⟩
  · intro dr' hagree
    simp only [nodeAPI.OutputAtBlock, recorded, nodeAPI.outputAtBlockBody, NewNodeAPI, hconv,
      hagree]

/-- C14 on the fixtures: for block 7 the client calls `kanvas_outputAtBlock`
with argument 7 and the response of the handler carries the driver's ref of
block 7; for block 17, which the driver does not know, the handler returns
the driver's error for 17. -/
theorem rollupClient_agrees_witness :
    (7 : Nat) < 2 ^ 64 ∧
    ((NewRollupClient traceRPC).OutputAtBlock ⟨0⟩ 7 []).2 = ["kanvas_outputAtBlock [7]"] ∧
    toUint64 (hexutil.Uint64 7) = 7 ∧
    (∃ resp, (goodNode.OutputAtBlock stubExt ⟨0⟩ (hexutil.Uint64 7) []).1 = (some resp, none) ∧
      resp.BlockRef = (goodNode.dr.BlockRefWithStatus ⟨0⟩ 7
        (goodNode.m.RecordRPCServerRequest "kanvas_outputAtBlock" []).2).1.1 ∧
      resp.Status = (goodNode.dr.BlockRefWithStatus ⟨0⟩ 7
        (goodNode.m.RecordRPCServerRequest "kanvas_outputAtBlock" []).2).1.2.1) ∧
    (goodNode.OutputAtBlock stubExt ⟨0⟩ (hexutil.Uint64 17) []).1 =
      (none, some (GoError.wrap "failed to get L2 block ref with sync status: "
        GoError.notFound)) :=
  ⟨by decide,
   (congrArg Prod.snd
      (rollupClient_agrees stubExt (NewRollupClient traceRPC) goodNode ⟨0⟩ 7 []
        (by decide)).1.1).trans (by decide),
   (rollupClient_agrees stubExt (NewRollupClient traceRPC) goodNode ⟨0⟩ 7 []
      (by decide)).2.2.1,
   (rollupClient_agrees stubExt (NewRollupClient traceRPC) goodNode ⟨0⟩ 7 []
      (by decide)).2.2.2.2.1 (by decide),
   congrArg Prod.fst
     ((rollupClient_agrees stubExt (NewRollupClient traceRPC) goodNode ⟨0⟩ 17 []
        (by decide)).2.2.2.1 GoError.notFound (by decide))⟩

end RollupClient

end Kanvas
